import Mathlib

/-!
# Crosswalk application service: lifecycle and API access control

A shallow embedding of `xwalk/application/browser/application_service.cc`
(install, uninstall, launch, the registry of running applications and the
permission resolver `CheckAPIAccessControl`), followed by theorems about it.

Conventions of the embedding:

* an `Application*` is an `Application` value whose field `ptr` is the address
  of the object; `std::find` on the registry compares `ptr`;
* the registry `applications_` (a `ScopedVector<Application>`) is a list, the
  front of the list being index `0`;
* a function that can end in a fatal check returns an `Exec`, which records
  whether the call returned or died, and the state at that moment;
* results of collaborators that live outside the service (file utilities,
  package reader, manifest loader, content loader) are supplied by an `Env`.
-/

namespace xwalk
namespace application

/-! ## Permission types (`permission_types.h`) -/

/-- Stored permission values, in the numeric order used by the name table of
`permission_types.cc`: `ALLOW = 0`, `DENY = 1`, `PROMPT = 2`, and
`INVALID_STORED_PERM = 3` (the value the specification calls `UNSET`). -/
inductive StoredPermission where
  | ALLOW
  | DENY
  | PROMPT
  | INVALID_STORED_PERM
  deriving DecidableEq, Repr

/-- Runtime decisions handed to the permission callback. -/
inductive RuntimePermission where
  | ALLOW_ONCE
  | ALLOW_SESSION
  | ALLOW_FOREVER
  | DENY_ONCE
  | DENY_SESSION
  | DENY_FOREVER
  | INVALID_RUNTIME_PERM
  deriving DecidableEq, Repr

/-- The two permission scopes an application can be asked about. -/
inductive PermissionType where
  | SESSION_PERMISSION
  | PERSISTENT_PERMISSION
  deriving DecidableEq, Repr

/-! ## Application data and running applications -/

/-- A path is the list of its components; the empty list is the empty path. -/
abbrev FilePath := List String

/-- The method `FilePath::Append` adds one component. -/
def FilePath.Append (p : FilePath) (component : String) : FilePath :=
  p ++ [component]

/-- The part of `ApplicationData` the service reads: the id, the resource
path, whether the manifest declares a main document, and the event names the
application listens to. -/
structure ApplicationData where
  ID : String
  path : FilePath
  has_main_document : Bool
  events : List String
  deriving DecidableEq, Repr

/-- The method `ApplicationData::HasMainDocument`. -/
def ApplicationData.HasMainDocument (d : ApplicationData) : Bool :=
  d.has_main_document

/-- The method `ApplicationData::GetEvents`. -/
def ApplicationData.GetEvents (d : ApplicationData) : List String :=
  d.events

/-- Entry points of a launch (`Application::LaunchEntryPoints`). -/
inductive LaunchEntryPoints where
  | Default
  | LaunchWebURLKey
  deriving DecidableEq, Repr

/-- A running application object.  The class `Application` is declared in
`application.h`; the service uses the members below.  `ptr` is the address of
the object, `extensions` the names of the extensions it has loaded,
`registered_permission_name` its table from (extension, API name) to permission
name (empty when nothing is registered), `permission` the value of a permission
name in a scope, and `register_permissions_result` what its own
`RegisterPermissions` answers. -/
structure Application where
  ptr : Nat
  data : ApplicationData
  entry_points : LaunchEntryPoints
  render_process_host_id : Int
  extensions : List String
  registered_permission_name : String → String → String
  permission : PermissionType → String → StoredPermission
  register_permissions_result : String → String → Bool

/-- The method `Application::id`: the id of the application data. -/
def Application.id (a : Application) : String :=
  a.data.ID

/-- The method `Application::GetRenderProcessHostID`. -/
def Application.GetRenderProcessHostID (a : Application) : Int :=
  a.render_process_host_id

/-- The method `Application::ContainsExtension`. -/
def Application.ContainsExtension (a : Application) (extension_name : String) : Bool :=
  decide (extension_name ∈ a.extensions)

/-- The method `Application::GetRegisteredPermissionName`. -/
def Application.GetRegisteredPermissionName (a : Application)
    (extension_name api_name : String) : String :=
  a.registered_permission_name extension_name api_name

/-- The method `Application::GetPermission`. -/
def Application.GetPermission (a : Application) (type : PermissionType)
    (permission_name : String) : StoredPermission :=
  a.permission type permission_name

/-! ## Registry lookups -/

/-- The function `ApplicationService::GetApplicationByID`: `std::find_if` with
`ApplicationIDComparator`, that is the first registered instance whose id
equals `app_id`, or none. -/
def GetApplicationByID (applications : List Application) (app_id : String) :
    Option Application :=
  applications.find? (fun application => decide (app_id = application.id))

/-- The function `ApplicationService::GetApplicationByRenderHostID`. -/
def GetApplicationByRenderHostID (applications : List Application) (id : Int) :
    Option Application :=
  applications.find? (fun application => decide (id = application.GetRenderProcessHostID))

/-- The function `ApplicationService::GetActiveApplication`: none when the
registry is empty, else the item at index `0`. -/
def GetActiveApplication (applications : List Application) : Option Application :=
  if applications.isEmpty then none else applications.head?

/-! ## The permission resolver -/

/-- How a call ended: it returned to its caller, or it died in a fatal check
(`CHECK`, or `DCHECK` / `NOTREACHED` in a build that has them switched on). -/
inductive Termination where
  | returned
  | fatal
  deriving DecidableEq, Repr

/-- What one call of `CheckAPIAccessControl` did: the values it passed to the
decision callback, in order, and how it ended. -/
structure CheckResult where
  calls : List RuntimePermission
  termination : Termination
  deriving DecidableEq, Repr

/-- The tail of `CheckAPIAccessControl` from the line "Then, consult the
persistent policy storage" on.  The last `NOTREACHED()` follows the four
tests; with `dcheck_is_on` it is fatal, without it the function just ends. -/
def CheckAPIAccessControl.persistent (dcheck_is_on : Bool) (app : Application)
    (permission_name : String) : CheckResult :=
  let perm := app.GetPermission PermissionType.PERSISTENT_PERMISSION permission_name
  if perm = StoredPermission.INVALID_STORED_PERM then
    ⟨[RuntimePermission.INVALID_RUNTIME_PERM], Termination.returned⟩
  else if perm = StoredPermission.PROMPT then
    ⟨[RuntimePermission.INVALID_RUNTIME_PERM], Termination.returned⟩
  else if perm = StoredPermission.ALLOW then
    ⟨[RuntimePermission.ALLOW_FOREVER], Termination.returned⟩
  else if perm = StoredPermission.DENY then
    ⟨[RuntimePermission.DENY_FOREVER], Termination.returned⟩
  else if dcheck_is_on then
    ⟨[], Termination.fatal⟩
  else
    ⟨[], Termination.returned⟩

/-- The function `ApplicationService::CheckAPIAccessControl`.  `dcheck_is_on`
says whether the build keeps `DCHECK` and `NOTREACHED` (both fatal when they
fire) or compiles them out. -/
def CheckAPIAccessControl (dcheck_is_on : Bool) (applications : List Application)
    (app_id extension_name api_name : String) : CheckResult :=
  match GetApplicationByID applications app_id with
  | none => ⟨[RuntimePermission.INVALID_RUNTIME_PERM], Termination.returned⟩
  | some app =>
    if !app.ContainsExtension extension_name then
      ⟨[RuntimePermission.INVALID_RUNTIME_PERM], Termination.returned⟩
    else
      let permission_name := app.GetRegisteredPermissionName extension_name api_name
      if permission_name.length = 0 then
        ⟨[RuntimePermission.INVALID_RUNTIME_PERM], Termination.returned⟩
      else
        let perm := app.GetPermission PermissionType.SESSION_PERMISSION permission_name
        if perm ≠ StoredPermission.INVALID_STORED_PERM then
          -- DCHECK(perm != PROMPT)
          if dcheck_is_on && decide (perm = StoredPermission.PROMPT) then
            ⟨[], Termination.fatal⟩
          else if perm = StoredPermission.ALLOW then
            ⟨[RuntimePermission.ALLOW_SESSION], Termination.returned⟩
          else if perm = StoredPermission.DENY then
            ⟨[RuntimePermission.DENY_SESSION], Termination.returned⟩
          -- NOTREACHED()
          else if dcheck_is_on then
            ⟨[], Termination.fatal⟩
          else
            CheckAPIAccessControl.persistent dcheck_is_on app permission_name
        else
          CheckAPIAccessControl.persistent dcheck_is_on app permission_name

/-- The five decisions `CheckAPIAccessControl` can deliver. -/
def deliverable : List RuntimePermission :=
  [RuntimePermission.ALLOW_SESSION, RuntimePermission.DENY_SESSION,
   RuntimePermission.ALLOW_FOREVER, RuntimePermission.DENY_FOREVER,
   RuntimePermission.INVALID_RUNTIME_PERM]

/-! ## File system, package reader and durable store (collaborators) -/

/-- Modelled from the spec: the file utilities (`base/file_util.h`) are not
part of the service.  A file system is the set of directories and the set of
regular files that exist. -/
structure FileSystem where
  directories : List FilePath
  files : List FilePath
  deriving DecidableEq, Repr

/-- Modelled from the spec: `base::PathExists`. -/
def PathExists (fs : FileSystem) (p : FilePath) : Bool :=
  decide (p ∈ fs.directories) || decide (p ∈ fs.files)

/-- Modelled from the spec: `base::DirectoryExists`. -/
def DirectoryExists (fs : FileSystem) (p : FilePath) : Bool :=
  decide (p ∈ fs.directories)

/-- Modelled from the spec: `file_util::CreateDirectory`.  It succeeds on a
directory that exists; otherwise, when no regular file has that name and the
system grants the creation (`ok`), the directory exists afterwards; otherwise
it fails and nothing changes. -/
def CreateDirectory (ok : Bool) (fs : FileSystem) (p : FilePath) : Bool × FileSystem :=
  if DirectoryExists fs p then (true, fs)
  else if ok && !PathExists fs p then
    (true, { fs with directories := fs.directories ++ [p] })
  else (false, fs)

/-- Whether `q` is `p` itself or lies below `p`. -/
def FilePath.isWithin (p q : FilePath) : Bool :=
  p.isPrefixOf q

/-- Modelled from the spec: `base::DeleteFile`.  When the system grants it,
the path is gone afterwards and, for a recursive deletion, so is everything
below it; when it refuses nothing changes. -/
def DeleteFile (ok : Bool) (fs : FileSystem) (p : FilePath) (recursive : Bool) :
    Bool × FileSystem :=
  if ok then
    let gone : FilePath → Bool := fun q =>
      if recursive then FilePath.isWithin p q else decide (q = p)
    (true, { directories := fs.directories.filter (fun q => !gone q),
             files := fs.files.filter (fun q => !gone q) })
  else (false, fs)

/-- Modelled from the spec: `base::Move`.  It fails when the source does not
exist or the system refuses; otherwise everything at or below `src` is found at
or below `dst` afterwards. -/
def Move (ok : Bool) (fs : FileSystem) (src dst : FilePath) : Bool × FileSystem :=
  if ok && PathExists fs src then
    let moved : FilePath → FilePath := fun q =>
      if FilePath.isWithin src q then dst ++ q.drop src.length else q
    (true, { directories := fs.directories.map moved, files := fs.files.map moved })
  else (false, fs)

/-- Modelled from the spec: a package opened by `Package::Create`: its id and
the temporary directory `Extract` unpacks it to (none when extraction fails). -/
structure Package where
  id : String
  extract_dir : Option FilePath
  deriving DecidableEq, Repr

/-- The method `Package::Id`. -/
def Package.Id (p : Package) : String :=
  p.id

/-- Modelled from the spec: `Package::Extract(&temp_dir)`: on success the
temporary directory exists and `temp_dir` names it; on failure `temp_dir` keeps
its value and nothing changes. -/
def Package.Extract (p : Package) (fs : FileSystem) (temp_dir : FilePath) :
    Bool × FilePath × FileSystem :=
  match p.extract_dir with
  | some d =>
    (true, d, if DirectoryExists fs d then fs
              else { fs with directories := fs.directories ++ [d] })
  | none => (false, temp_dir, fs)

/-- Modelled from the spec: the durable store (`ApplicationStorage`), a
record store keyed by application id. -/
structure ApplicationStorage where
  records : List ApplicationData
  deriving DecidableEq, Repr

/-- Modelled from the spec: `contains(id)`. -/
def ApplicationStorage.Contains (s : ApplicationStorage) (id : String) : Bool :=
  s.records.any (fun r => decide (r.ID = id))

/-- Modelled from the spec: `get(id) → record | none`. -/
def ApplicationStorage.GetApplicationData (s : ApplicationStorage) (id : String) :
    Option ApplicationData :=
  s.records.find? (fun r => decide (r.ID = id))

/-- Modelled from the spec: `add(record) → bool`.  Ids are unique across the
stored records, so adding a record whose id is present fails; so does a write
the backing store refuses (`ok = false`).  A failed call changes nothing. -/
def ApplicationStorage.AddApplication (ok : Bool) (s : ApplicationStorage)
    (application : ApplicationData) : Bool × ApplicationStorage :=
  if s.Contains application.ID then (false, s)
  else if ok then (true, { records := s.records ++ [application] })
  else (false, s)

/-- Modelled from the spec: `remove(id) → bool`.  It fails when the id is
unknown or the backing store refuses the write; a failed call changes
nothing. -/
def ApplicationStorage.RemoveApplication (ok : Bool) (s : ApplicationStorage)
    (id : String) : Bool × ApplicationStorage :=
  if !s.Contains id then (false, s)
  else if ok then (true, { records := s.records.filter (fun r => !decide (r.ID = id)) })
  else (false, s)

/-! ## Service state -/

/-- A call received by an observer of the service. -/
inductive Notification where
  | OnApplicationInstalled (observer : Nat) (id : String)
  | OnApplicationUninstalled (observer : Nat) (id : String)
  | DidLaunchApplication (observer : Nat) (application : Nat)
  | WillDestroyApplication (observer : Nat) (application : Nat)
  deriving DecidableEq, Repr

/-- The `CloseAfterLoadObserver` created by `WaitForFinishLoad`: the
application data it holds and the web contents it watches (named by the
address of the running application that owns them). -/
structure CloseAfterLoadObserver where
  application : ApplicationData
  contents : Nat
  deriving DecidableEq, Repr

/-- A `base::Value` held in the argument list of an event, as far as
`GetString` tells values apart: a string, or a value of another type. -/
inductive Value where
  | string (s : String)
  | other (tag : Nat)
  deriving DecidableEq, Repr

/-- An application event: its name and its argument list. -/
structure Event where
  name : String
  args : List Value
  deriving DecidableEq, Repr

/-- The function `Event::CreateEvent`. -/
def Event.CreateEvent (event_name : String) (event_args : List Value) : Event :=
  { name := event_name, args := event_args }

/-- The method `ListValue::GetString(index, &out)`: when the list has a string
at `index` it is written to `out` and the call succeeds; otherwise the call
fails and `out` keeps its value. -/
def ListValue.GetString (args : List Value) (index : Nat) (out : String) : Bool × String :=
  match args[index]? with
  | some (Value.string s) => (true, s)
  | _ => (false, out)

/-- The local class `CloseOnEventArrived` of `WaitForEventAndClose`: the
address of the object and its member `event_name_`. -/
structure CloseOnEventArrived where
  ptr : Nat
  event_name_ : String
  deriving DecidableEq, Repr

/-- One registration in the event manager: the application id and event name
the observer was attached under, and the observer. -/
structure AttachedObserver where
  app_id : String
  event_name : String
  observer : CloseOnEventArrived
  deriving DecidableEq, Repr

/-- The state the service works on: the file system, the durable store, the
registry `applications_`, the observer list `observers_`, the calls the
observers have received so far (oldest first), the address the next `new`
object gets, the number of quit tasks posted to the message loop, the
ids passed to the event manager's `OnAppLoaded`, and the load observers
created by `WaitForFinishLoad`; then the number of `QuitWhenIdle` calls made by
`CloseMessageLoop`, the events passed to the event manager's `SendEvent`
(with the target application id, oldest first), and the observers attached to
the event manager. -/
structure World where
  file_system : FileSystem
  storage : ApplicationStorage
  applications : List Application
  observers : List Nat
  notifications : List Notification
  next_ptr : Nat
  quit_tasks : Nat
  apps_loaded : List String
  load_observers : List CloseAfterLoadObserver
  quit_when_idle : Nat := 0
  sent_events : List (String × Event) := []
  event_observers : List AttachedObserver := []

/-- What the collaborators outside the service answer during one call: the
runtime context's data path, whether the system grants directory creation,
deletion and moves, what `Package::Create` and `LoadApplication` return,
whether `InitApplicationPermission` accepts a record, whether the backing store
accepts writes, whether the content loading step `Application::Launch`
succeeds, and the members a freshly constructed `Application` starts with. -/
structure Env where
  data_path : FilePath
  create_directory_ok : Bool
  delete_file_ok : Bool
  move_ok : Bool
  package : FilePath → Option Package
  load_application : FilePath → String → Except String ApplicationData
  init_application_permission : ApplicationData → Bool
  storage_write_ok : Bool
  application_launch_ok : Bool
  application_members : Application

/-- The outcome of a call that may end in a fatal check: the value returned
and the state at return, or the state at the moment the check failed. -/
inductive Exec (α : Type) where
  | returned (value : α) (world : World)
  | fatal (world : World)

/-- The constant `kApplicationsDir`. -/
def kApplicationsDir : String := "applications"

/-- The macro `FOR_EACH_OBSERVER`: every observer in the list receives the
call, in list order. -/
def FOR_EACH_OBSERVER (w : World) (call : Nat → Notification) : World :=
  { w with notifications := w.notifications ++ w.observers.map call }

/-! ## Launch and termination -/

/-- The object built in `Launch` by `new Application(application_data,
runtime_context_, this)` followed by `set_entry_points(entry_points)`: it lives
at the address `next_ptr`. -/
def Launch.application (env : Env) (w : World) (application_data : ApplicationData)
    (entry_points : LaunchEntryPoints) : Application :=
  { env.application_members with
    ptr := w.next_ptr, data := application_data, entry_points := entry_points }

/-- Live objects have pairwise distinct addresses, all handed out before
`next_ptr`. -/
def World.WellFormed (w : World) : Prop :=
  (w.applications.map Application.ptr).Nodup ∧ ∀ a ∈ w.applications, a.ptr < w.next_ptr

/-- The function `ApplicationService::Launch(application_data, entry_points)`.
The new object gets the address `next_ptr`; it is pushed to the back of the
registry, and popped again when its own `Launch` fails. -/
def Launch (env : Env) (w : World) (application_data : ApplicationData)
    (entry_points : LaunchEntryPoints) : Option Application × World :=
  let w := { w with apps_loaded := w.apps_loaded ++ [application_data.ID] }
  let application := Launch.application env w application_data entry_points
  let w := { w with next_ptr := w.next_ptr + 1 }
  let w := { w with applications := w.applications ++ [application] }
  if !env.application_launch_ok then
    (none, { w with applications := w.applications.dropLast })
  else
    (some application,
      FOR_EACH_OBSERVER w (fun o => Notification.DidLaunchApplication o application.ptr))

/-- The function `ApplicationService::Launch(id)`. -/
def LaunchByID (env : Env) (w : World) (id : String) : Option Application × World :=
  match w.storage.GetApplicationData id with
  | none => (none, w)
  | some application_data => Launch env w application_data LaunchEntryPoints.Default

/-- The function `ApplicationService::OnApplicationTerminated`.  `std::find`
compares addresses; `CHECK` is fatal in every build. -/
def OnApplicationTerminated (w : World) (application : Application) : Exec Unit :=
  match w.applications.find? (fun a => a.ptr == application.ptr) with
  | none => Exec.fatal w
  | some _ =>
    let w := FOR_EACH_OBSERVER w
      (fun o => Notification.WillDestroyApplication o application.ptr)
    let w := { w with applications :=
      w.applications.eraseP (fun a => a.ptr == application.ptr) }
    if w.applications.isEmpty then
      Exec.returned () { w with quit_tasks := w.quit_tasks + 1 }
    else
      Exec.returned () w

/-! ## Install and uninstall (build without `OS_TIZEN_MOBILE`) -/

/-- The function `WaitForFinishLoad`: it creates one `CloseAfterLoadObserver`
on the web contents. -/
def WaitForFinishLoad (w : World) (application : ApplicationData) (contents : Nat) : World :=
  { w with load_observers := w.load_observers ++ [⟨application, contents⟩] }

/-- The second half of `ApplicationService::Install`, from `LoadApplication`
to the end; both branches of the first half continue here. -/
def Install.load (env : Env) (w : World) (unpacked_dir : FilePath) (app_id : String)
    (id : String) : Bool × String × World :=
  match env.load_application unpacked_dir app_id with
  | Except.error _ => (false, id, w)
  | Except.ok application_data =>
    if !env.init_application_permission application_data then (false, id, w)
    else
      let added := w.storage.AddApplication env.storage_write_ok application_data
      let w := { w with storage := added.2 }
      if !added.1 then (false, id, w)
      else
        let id := application_data.ID
        let w := FOR_EACH_OBSERVER w
          (fun o => Notification.OnApplicationInstalled o application_data.ID)
        if application_data.HasMainDocument then
          match LaunchByID env w application_data.ID with
          | (some application, w) =>
            (true, id, WaitForFinishLoad w application.data application.ptr)
          | (none, w) => (true, id, w)
        else (true, id, w)

/-- The function `ApplicationService::Install(path, id)`; the `id` argument is
the value the output string holds before the call, the second component of the
result the value it holds after. -/
def Install (env : Env) (w : World) (path : FilePath) (id : String) :
    Bool × String × World :=
  if !PathExists w.file_system path then (false, id, w)
  else
    let data_dir := FilePath.Append env.data_path kApplicationsDir
    let created :=
      if DirectoryExists w.file_system data_dir then (true, w.file_system)
      else CreateDirectory env.create_directory_ok w.file_system data_dir
    let w := { w with file_system := created.2 }
    if !created.1 then (false, id, w)
    else if !DirectoryExists w.file_system path then
      -- `app_id` stays empty when `Package::Create` yields no package
      match env.package path with
      | none => (false, id, w)
      | some package =>
        let app_id := package.Id
        if app_id = "" then (false, id, w)
        else if w.storage.Contains app_id then (false, app_id, w)
        else
          let extracted := package.Extract w.file_system []
          let temp_dir := extracted.2.1
          let w := { w with file_system := extracted.2.2 }
          let unpacked_dir := FilePath.Append data_dir app_id
          let deleted :=
            if DirectoryExists w.file_system unpacked_dir then
              DeleteFile env.delete_file_ok w.file_system unpacked_dir true
            else (true, w.file_system)
          let w := { w with file_system := deleted.2 }
          if !deleted.1 then (false, id, w)
          else
            let moved := Move env.move_ok w.file_system temp_dir unpacked_dir
            let w := { w with file_system := moved.2 }
            if !moved.1 then (false, id, w)
            else Install.load env w unpacked_dir app_id id
    else Install.load env w path "" id

/-- The function `ApplicationService::Uninstall(id)`. -/
def Uninstall (env : Env) (w : World) (id : String) : Bool × World :=
  let removed := w.storage.RemoveApplication env.storage_write_ok id
  let w := { w with storage := removed.2 }
  if !removed.1 then (false, w)
  else
    let resources := FilePath.Append (FilePath.Append env.data_path kApplicationsDir) id
    let deleted :=
      if DirectoryExists w.file_system resources then
        DeleteFile env.delete_file_ok w.file_system resources true
      else (true, w.file_system)
    let w := { w with file_system := deleted.2 }
    if !deleted.1 then (false, w)
    else (true, FOR_EACH_OBSERVER w (fun o => Notification.OnApplicationUninstalled o id))

/-- The first half of `ApplicationService::Install`, up to the call of
`LoadApplication`: either the failing result returned there, or the directory
and id handed to `LoadApplication` together with the state at that point. -/
def Install.unpack (env : Env) (w : World) (path : FilePath) (id : String) :
    Except (Bool × String × World) (FilePath × String × World) :=
  if !PathExists w.file_system path then Except.error (false, id, w)
  else
    let data_dir := FilePath.Append env.data_path kApplicationsDir
    let created :=
      if DirectoryExists w.file_system data_dir then (true, w.file_system)
      else CreateDirectory env.create_directory_ok w.file_system data_dir
    let w := { w with file_system := created.2 }
    if !created.1 then Except.error (false, id, w)
    else if !DirectoryExists w.file_system path then
      match env.package path with
      | none => Except.error (false, id, w)
      | some package =>
        let app_id := package.Id
        if app_id = "" then Except.error (false, id, w)
        else if w.storage.Contains app_id then Except.error (false, app_id, w)
        else
          let extracted := package.Extract w.file_system []
          let temp_dir := extracted.2.1
          let w := { w with file_system := extracted.2.2 }
          let unpacked_dir := FilePath.Append data_dir app_id
          let deleted :=
            if DirectoryExists w.file_system unpacked_dir then
              DeleteFile env.delete_file_ok w.file_system unpacked_dir true
            else (true, w.file_system)
          let w := { w with file_system := deleted.2 }
          if !deleted.1 then Except.error (false, id, w)
          else
            let moved := Move env.move_ok w.file_system temp_dir unpacked_dir
            let w := { w with file_system := moved.2 }
            if !moved.1 then Except.error (false, id, w)
            else Except.ok (unpacked_dir, app_id, w)
    else Except.ok (path, "", w)

/-! ## Registration of permission tables -/

/-- The method `Application::RegisterPermissions`. -/
def Application.RegisterPermissions (a : Application) (extension_name perm_table : String) :
    Bool :=
  a.register_permissions_result extension_name perm_table

/-- The function `ApplicationService::RegisterPermissions`: the value it
returns, and the calls of `Application::RegisterPermissions` it makes (address
of the instance, extension name, table). -/
def RegisterPermissions (applications : List Application)
    (app_id extension_name perm_table : String) : Bool × List (Nat × String × String) :=
  match GetApplicationByID applications app_id with
  | none => (false, [])
  | some app =>
    if !app.ContainsExtension extension_name then (false, [])
    else
      (app.RegisterPermissions extension_name perm_table,
        [(app.ptr, extension_name, perm_table)])

/-! ## Names of stored permissions (`permission_types.cc`) -/

/-- The numeric value of a stored permission. -/
def StoredPermission.value : StoredPermission → Nat
  | StoredPermission.ALLOW => 0
  | StoredPermission.DENY => 1
  | StoredPermission.PROMPT => 2
  | StoredPermission.INVALID_STORED_PERM => 3

/-- The cast `static_cast<StoredPermission>(i)` on the values `0` to `3`, the
only ones the loop of `StringToStoredPerm` can end with. -/
def StoredPermission.cast : Nat → StoredPermission
  | 0 => StoredPermission.ALLOW
  | 1 => StoredPermission.DENY
  | 2 => StoredPermission.PROMPT
  | _ => StoredPermission.INVALID_STORED_PERM

/-- The table `StoredPermissionStr`. -/
def StoredPermissionStr : List String := ["ALLOW", "DENY", "PROMPT"]

/-- The function `StoredPermToString`; the result is none when the index
falls outside the table. -/
def StoredPermToString (permission : StoredPermission) : Option String :=
  if permission = StoredPermission.INVALID_STORED_PERM then some ""
  else StoredPermissionStr[permission.value]?

/-- The loop of `StringToStoredPerm` started at index `i` with `remaining`
iterations to go before `i` reaches `INVALID_STORED_PERM`: the value of `i`
when the loop ends. -/
def StringToStoredPerm.loop (str : String) (i : Nat) : Nat → Nat
  | 0 => i
  | remaining + 1 =>
    if StoredPermissionStr[i]? = some str then i
    else StringToStoredPerm.loop str (i + 1) remaining

/-- The function `StringToStoredPerm`. -/
def StringToStoredPerm (str : String) : StoredPermission :=
  StoredPermission.cast
    (StringToStoredPerm.loop str 0 StoredPermission.INVALID_STORED_PERM.value)

/-! ## Runs of the registry -/

/-- The states the registry reaches from an empty registry by calls of `Launch`
(successful or failed) and calls of `OnApplicationTerminated` that return,
together with the instances launched successfully so far, oldest first. -/
inductive Reachable : World → List Application → Prop where
  | empty (w : World) (h : w.applications = []) : Reachable w []
  | launched (env : Env) (w : World) (history : List Application)
      (application_data : ApplicationData) (entry_points : LaunchEntryPoints)
      (application : Application) (w1 : World)
      (h : Reachable w history)
      (h_launch : Launch env w application_data entry_points = (some application, w1)) :
      Reachable w1 (history ++ [application])
  | launch_failed (env : Env) (w : World) (history : List Application)
      (application_data : ApplicationData) (entry_points : LaunchEntryPoints) (w1 : World)
      (h : Reachable w history)
      (h_launch : Launch env w application_data entry_points = (none, w1)) :
      Reachable w1 history
  | terminated (w : World) (history : List Application) (application : Application)
      (w1 : World)
      (h : Reachable w history)
      (h_terminated : OnApplicationTerminated w application = Exec.returned () w1) :
      Reachable w1 history

/-- Whether an instance is still registered: the registry holds the object at
its address. -/
def StillRegistered (applications : List Application) (a : Application) : Bool :=
  applications.any (fun b => b.ptr == a.ptr)

/-! ## Lifecycle event coordinator -/

/-- Modelled from the spec: the name of the "installed" event, the constant
`kOnInstalled` of `event_names.h`. -/
def kOnInstalled : String := "app.onInstalled"

/-- Modelled from the spec: the name of the acknowledgment event, the
constant `kOnJavaScriptEventAck` of `event_names.h`. -/
def kOnJavaScriptEventAck : String := "onJavaScriptEventAck"

/-- The function `CloseMessageLoop`: one call of `QuitWhenIdle`. -/
def CloseMessageLoop (w : World) : World :=
  { w with quit_when_idle := w.quit_when_idle + 1 }

/-- Modelled from the spec: `ApplicationEventManager::SendEvent` takes the
event for the application; the manager itself is not under `src/`. -/
def SendEvent (w : World) (app_id : String) (event : Event) : World :=
  { w with sent_events := w.sent_events ++ [(app_id, event)] }

/-- Modelled from the spec: `ApplicationEventManager::AttachObserver`. -/
def AttachObserver (w : World) (app_id event_name : String) (observer : CloseOnEventArrived) :
    World :=
  { w with event_observers := w.event_observers ++ [⟨app_id, event_name, observer⟩] }

/-- Whether the observer object is attached to the event manager. -/
def CloseOnEventArrived.attached (self : CloseOnEventArrived) (w : World) : Bool :=
  w.event_observers.any (fun o => o.observer.ptr == self.ptr)

/-- The method `CloseOnEventArrived::Observe`.  `delete this` ends the
observer: the destructor of `EventObserver` takes it off the event manager. -/
def CloseOnEventArrived.Observe (dcheck_is_on : Bool) (w : World)
    (self : CloseOnEventArrived) (_app_id : String) (event : Event) : Exec Unit :=
  -- DCHECK(kOnJavaScriptEventAck == event->name())
  if dcheck_is_on && !decide (kOnJavaScriptEventAck = event.name) then Exec.fatal w
  else
    let ack_event_name := (ListValue.GetString event.args 0 "").2
    if ack_event_name ≠ self.event_name_ then Exec.returned () w
    else
      let w := CloseMessageLoop w
      Exec.returned ()
        { w with event_observers :=
            w.event_observers.filter (fun o => o.observer.ptr != self.ptr) }

/-- The observer built by `CloseOnEventArrived::Create` in
`WaitForEventAndClose`: it lives at the address `next_ptr`. -/
def WaitForEventAndClose.observer (w : World) (event_name : String) : CloseOnEventArrived :=
  { ptr := w.next_ptr, event_name_ := event_name }

/-- The function `WaitForEventAndClose`; the event manager passed to it is the
one of the service, so `DCHECK(event_manager)` holds. -/
def WaitForEventAndClose (w : World) (app_id event_name : String) : World :=
  let observer := WaitForEventAndClose.observer w event_name
  let w := { w with next_ptr := w.next_ptr + 1 }
  AttachObserver w app_id kOnJavaScriptEventAck observer

/-- Modelled from the spec: the event manager hands each event of the
sequence to the observer as long as the observer is attached; the call dies
when `Observe` dies. -/
def DeliverEvents (dcheck_is_on : Bool) (w : World) (self : CloseOnEventArrived)
    (app_id : String) : List Event → Exec Unit
  | [] => Exec.returned () w
  | event :: rest =>
    if self.attached w then
      match self.Observe dcheck_is_on w app_id event with
      | Exec.returned _ w1 => DeliverEvents dcheck_is_on w1 self app_id rest
      | Exec.fatal w1 => Exec.fatal w1
    else DeliverEvents dcheck_is_on w self app_id rest

/-- The name `Observe` reads from an acknowledgment: argument 0 when it is a
string, else the empty string. -/
def Event.ack_event_name (event : Event) : String :=
  (ListValue.GetString event.args 0 "").2

/-- The method `CloseAfterLoadObserver::IsEventHandlerRegistered`. -/
def CloseAfterLoadObserver.IsEventHandlerRegistered (self : CloseAfterLoadObserver)
    (event_name : String) : Bool :=
  decide (event_name ∈ self.application.GetEvents)

/-- The method `CloseAfterLoadObserver::DidFinishLoad`.  `delete this` ends
the observer: it no longer watches the web contents. -/
def CloseAfterLoadObserver.DidFinishLoad (w : World) (self : CloseAfterLoadObserver) :
    World :=
  let w :=
    if !self.IsEventHandlerRegistered kOnInstalled then CloseMessageLoop w
    else
      let event := Event.CreateEvent kOnInstalled []
      let w := SendEvent w self.application.ID event
      WaitForEventAndClose w self.application.ID event.name
  { w with load_observers := w.load_observers.erase self }

/-- Modelled from the spec: the web contents tell each load observer that
watches them that the load has finished. -/
def NotifyDidFinishLoad (w : World) (contents : Nat) : World :=
  (w.load_observers.filter (fun o => o.contents == contents)).foldl
    CloseAfterLoadObserver.DidFinishLoad w

/-- The state a call ended in. -/
def Exec.world {α : Type} : Exec α → World
  | Exec.returned _ w => w
  | Exec.fatal w => w

/-- Whether the call returned to its caller. -/
def Exec.isReturned {α : Type} : Exec α → Bool
  | Exec.returned _ _ => true
  | Exec.fatal _ => false

/-! ## The extension bridge (`xwalk_app_extension_bridge.cc`) -/

/-- The function `XWalkAppExtensionBridge::CheckAPIAccessControl`.  The
callback of the extension system is handed on to the service unchanged, so the
decisions it receives are recorded in the same way. -/
def XWalkAppExtensionBridge.CheckAPIAccessControl (dcheck_is_on : Bool)
    (applications : List Application) (extension_name api_name : String) : CheckResult :=
  match GetActiveApplication applications with
  | some running_app =>
    let app_id := running_app.id
    xwalk.application.CheckAPIAccessControl dcheck_is_on applications app_id extension_name
      api_name
  | none =>
    -- We don't support permission check for simple browser mode.
    ⟨[RuntimePermission.INVALID_RUNTIME_PERM], Termination.returned⟩

/-- The function `XWalkAppExtensionBridge::RegisterPermissions`. -/
def XWalkAppExtensionBridge.RegisterPermissions (applications : List Application)
    (extension_name perm_table : String) : Bool × List (Nat × String × String) :=
  match GetActiveApplication applications with
  | some running_app =>
    let app_id := running_app.id
    xwalk.application.RegisterPermissions applications app_id extension_name perm_table
  | none => (false, [])

/-! ## Sample objects used to exercise the definitions -/

/-- Application data of a sample application with id `app1`. -/
def sampleData : ApplicationData :=
  { ID := "app1", path := ["data", "applications", "app1"],
    has_main_document := false, events := [] }

/-- A running instance of `sampleData` that has loaded the extension `ext`,
has registered permission name `perm` for its API `api`, and whose session and
persistent values of every permission name are the two arguments. -/
def sampleApp (session persistent : StoredPermission) : Application :=
  { ptr := 1, data := sampleData, entry_points := LaunchEntryPoints.Default,
    render_process_host_id := 7, extensions := ["ext"],
    registered_permission_name := fun e a =>
      if e = "ext" ∧ a = "api" then "perm" else "",
    permission := fun t _ =>
      match t with
      | PermissionType.SESSION_PERMISSION => session
      | PermissionType.PERSISTENT_PERMISSION => persistent,
    register_permissions_result := fun _ _ => true }

/-- Collaborator answers for the samples: data path `data`, the system grants
every file operation, every archive is the package `app1` unpacking to
`tmp/unpacked`, the manifest loader yields `sampleData` at the directory it is
given, permission data and store writes are accepted, content loads. -/
def sampleEnv : Env :=
  { data_path := ["data"], create_directory_ok := true, delete_file_ok := true,
    move_ok := true,
    package := fun _ => some { id := "app1", extract_dir := some ["tmp", "unpacked"] },
    load_application := fun dir _ => Except.ok { sampleData with path := dir },
    init_application_permission := fun _ => true,
    storage_write_ok := true, application_launch_ok := true,
    application_members :=
      sampleApp StoredPermission.INVALID_STORED_PERM StoredPermission.INVALID_STORED_PERM }

/-- A state in which `app1` is installed (its record is in the store), the
archive `pkg.xpk` exists, the managed applications directory does not, nothing
runs, and two observers `10` and `11` are attached. -/
def sampleWorld : World :=
  { file_system := { directories := [], files := [["pkg.xpk"]] },
    storage := { records := [sampleData] },
    applications := [], observers := [10, 11], notifications := [],
    next_ptr := 2, quit_tasks := 0, apps_loaded := [], load_observers := [] }

/-- The state `sampleWorld` with one running instance of `app1` at address 1. -/
def sampleRunningWorld : World :=
  { sampleWorld with
    applications :=
      [sampleApp StoredPermission.INVALID_STORED_PERM StoredPermission.INVALID_STORED_PERM] }

/-- The state `sampleWorld` before `app1` was installed: the store is empty. -/
def sampleFreshWorld : World :=
  { sampleWorld with storage := { records := [] } }

/-- The state `sampleWorld` with the resource directory of `app1` on disk. -/
def sampleInstalledWorld : World :=
  { sampleWorld with
    file_system :=
      { directories := [["data", "applications"], ["data", "applications", "app1"]],
        files := [["pkg.xpk"]] } }

/-- A running instance of another application, `app0`, at address 1. -/
def sampleOtherApp : Application :=
  { sampleApp StoredPermission.ALLOW StoredPermission.ALLOW with
    data := { sampleData with ID := "app0", path := ["data", "applications", "app0"] } }

/-- The state `sampleWorld` with `sampleOtherApp` running. -/
def sampleOtherWorld : World :=
  { sampleWorld with applications := [sampleOtherApp] }

/-- The running instance `sampleApp` with an empty table of registered
permission names. -/
def sampleUnregisteredApp : Application :=
  { sampleApp StoredPermission.ALLOW StoredPermission.ALLOW with
    registered_permission_name := fun _ _ => "" }

/-- A second running instance of `app1`, at address 4 behind `sampleOtherApp`
and `sampleApp`: a registry of three instances. -/
def sampleThreeApps : List Application :=
  [sampleOtherApp,
   { sampleApp StoredPermission.ALLOW StoredPermission.ALLOW with ptr := 3 },
   { sampleOtherApp with ptr := 4 }]

/-- The state after `app1` was launched from `sampleWorld` (address 2). -/
def sampleRun1 : World :=
  (Launch sampleEnv sampleWorld sampleData LaunchEntryPoints.Default).2

/-- The state after a second launch of `app1` (address 3). -/
def sampleRun2 : World :=
  (Launch sampleEnv sampleRun1 sampleData LaunchEntryPoints.Default).2

/-- The state after a failed third launch. -/
def sampleRun3 : World :=
  (Launch { sampleEnv with application_launch_ok := false } sampleRun2 sampleData
    LaunchEntryPoints.Default).2

/-- The state after the first instance (address 2) was unregistered. -/
def sampleRun4 : World :=
  { sampleRun3 with
    applications := [Launch.application sampleEnv sampleRun1 sampleData
      LaunchEntryPoints.Default],
    notifications := sampleRun3.notifications ++
      [Notification.WillDestroyApplication 10 2, Notification.WillDestroyApplication 11 2] }

/-- The instance launched first in the sample run (address 2). -/
def sampleFirst : Application :=
  Launch.application sampleEnv sampleWorld sampleData LaunchEntryPoints.Default

/-- The instance launched second in the sample run (address 3). -/
def sampleSecond : Application :=
  Launch.application sampleEnv sampleRun1 sampleData LaunchEntryPoints.Default

/-- An acknowledgment event whose argument 0 is the string `inner`. -/
def sampleAck (inner : String) : Event :=
  Event.CreateEvent kOnJavaScriptEventAck [Value.string inner]

/-- The load observer of a running instance of `app1` at address 2 whose
application listens to the events `events`. -/
def sampleLoadObserver (events : List String) : CloseAfterLoadObserver :=
  { application := { sampleData with has_main_document := true, events := events },
    contents := 2 }

/-- The state `sampleWorld` with the load observer `sampleLoadObserver events`
and a load observer on other web contents. -/
def sampleLoadingWorld (events : List String) : World :=
  { sampleWorld with
    load_observers := [{ application := sampleData, contents := 9 },
                       sampleLoadObserver events] }

/-! ## Theorems: the permission resolver -/

/-- A string of length zero is the empty string. -/
theorem string_length_eq_zero (s : String) : s.length = 0 ↔ s = "" := by
  constructor
  · intro h
    cases s with
    | mk data =>
      have hd : data = [] := List.length_eq_zero.mp h
      subst hd
      rfl
  · intro h
    subst h
    rfl

/-- The persistent tail always hands exactly one of four decisions to the
callback and returns. -/
theorem persistent_cases (dcheck_is_on : Bool) (app : Application) (permission_name : String) :
    CheckAPIAccessControl.persistent dcheck_is_on app permission_name =
      ⟨[match app.GetPermission PermissionType.PERSISTENT_PERMISSION permission_name with
        | StoredPermission.ALLOW => RuntimePermission.ALLOW_FOREVER
        | StoredPermission.DENY => RuntimePermission.DENY_FOREVER
        | StoredPermission.PROMPT => RuntimePermission.INVALID_RUNTIME_PERM
        | StoredPermission.INVALID_STORED_PERM => RuntimePermission.INVALID_RUNTIME_PERM],
       Termination.returned⟩ := by
  unfold CheckAPIAccessControl.persistent
  cases h : app.GetPermission PermissionType.PERSISTENT_PERMISSION permission_name <;> simp

/-- C1: when the id resolves to a running application that has the extension
loaded and a non-empty permission name registered for the API name, a SESSION
value of ALLOW makes `CheckAPIAccessControl` deliver ALLOW_SESSION and a
SESSION value of DENY makes it deliver DENY_SESSION (one callback call, normal
return).  Nothing is assumed about the PERSISTENT value, so this holds for each
of ALLOW, DENY, PROMPT and UNSET there. -/
theorem C1_session_value_decides (dcheck_is_on : Bool) (applications : List Application)
    (app_id extension_name api_name : String) (app : Application)
    (h_running : GetApplicationByID applications app_id = some app)
    (h_extension : app.ContainsExtension extension_name = true)
    (h_name : app.GetRegisteredPermissionName extension_name api_name ≠ "") :
    (app.GetPermission PermissionType.SESSION_PERMISSION
        (app.GetRegisteredPermissionName extension_name api_name) = StoredPermission.ALLOW →
      CheckAPIAccessControl dcheck_is_on applications app_id extension_name api_name =
        ⟨[RuntimePermission.ALLOW_SESSION], Termination.returned⟩) ∧
    (app.GetPermission PermissionType.SESSION_PERMISSION
        (app.GetRegisteredPermissionName extension_name api_name) = StoredPermission.DENY →
      CheckAPIAccessControl dcheck_is_on applications app_id extension_name api_name =
        ⟨[RuntimePermission.DENY_SESSION], Termination.returned⟩) := by
  have h_len : (app.GetRegisteredPermissionName extension_name api_name).length ≠ 0 :=
    fun h => h_name ((string_length_eq_zero _).mp h)
  constructor
  · intro h_session
    simp [CheckAPIAccessControl, h_running, h_extension, h_len, h_session]
  · intro h_session
    simp [CheckAPIAccessControl, h_running, h_extension, h_len, h_session]

/-- C1 at concrete registries: session ALLOW over persistent DENY gives
ALLOW_SESSION, session DENY over persistent ALLOW gives DENY_SESSION. -/
theorem C1_session_value_decides_witness :
    CheckAPIAccessControl true [sampleApp StoredPermission.ALLOW StoredPermission.DENY]
        "app1" "ext" "api" =
      ⟨[RuntimePermission.ALLOW_SESSION], Termination.returned⟩ ∧
    CheckAPIAccessControl true [sampleApp StoredPermission.DENY StoredPermission.ALLOW]
        "app1" "ext" "api" =
      ⟨[RuntimePermission.DENY_SESSION], Termination.returned⟩ :=
  ⟨(C1_session_value_decides true
      [sampleApp StoredPermission.ALLOW StoredPermission.DENY] "app1" "ext" "api"
      (sampleApp StoredPermission.ALLOW StoredPermission.DENY)
      (by rfl) (by decide) (by decide)).1 (by rfl),
   (C1_session_value_decides true
      [sampleApp StoredPermission.DENY StoredPermission.ALLOW] "app1" "ext" "api"
      (sampleApp StoredPermission.DENY StoredPermission.ALLOW)
      (by rfl) (by decide) (by decide)).2 (by rfl)⟩

/-- C2: when the id resolves to a running application that has the extension
loaded and a non-empty permission name registered for the API name, and the
SESSION value is UNSET (`INVALID_STORED_PERM`), the decision is the image of
the PERSISTENT value: ALLOW gives ALLOW_FOREVER, DENY gives DENY_FOREVER, UNSET
and PROMPT give INVALID_RUNTIME_PERM (one callback call, normal return). -/
theorem C2_persistent_value_decides (dcheck_is_on : Bool) (applications : List Application)
    (app_id extension_name api_name : String) (app : Application)
    (h_running : GetApplicationByID applications app_id = some app)
    (h_extension : app.ContainsExtension extension_name = true)
    (h_name : app.GetRegisteredPermissionName extension_name api_name ≠ "")
    (h_session : app.GetPermission PermissionType.SESSION_PERMISSION
        (app.GetRegisteredPermissionName extension_name api_name) =
          StoredPermission.INVALID_STORED_PERM) :
    CheckAPIAccessControl dcheck_is_on applications app_id extension_name api_name =
      ⟨[match app.GetPermission PermissionType.PERSISTENT_PERMISSION
            (app.GetRegisteredPermissionName extension_name api_name) with
        | StoredPermission.ALLOW => RuntimePermission.ALLOW_FOREVER
        | StoredPermission.DENY => RuntimePermission.DENY_FOREVER
        | StoredPermission.PROMPT => RuntimePermission.INVALID_RUNTIME_PERM
        | StoredPermission.INVALID_STORED_PERM => RuntimePermission.INVALID_RUNTIME_PERM],
       Termination.returned⟩ := by
  have h_len : (app.GetRegisteredPermissionName extension_name api_name).length ≠ 0 :=
    fun h => h_name ((string_length_eq_zero _).mp h)
  simp [CheckAPIAccessControl, h_running, h_extension, h_len, h_session, persistent_cases]

/-- C2 at the four persistent values, with the session value UNSET. -/
theorem C2_persistent_value_decides_witness :
    CheckAPIAccessControl true
        [sampleApp StoredPermission.INVALID_STORED_PERM StoredPermission.ALLOW]
        "app1" "ext" "api" =
      ⟨[RuntimePermission.ALLOW_FOREVER], Termination.returned⟩ ∧
    CheckAPIAccessControl true
        [sampleApp StoredPermission.INVALID_STORED_PERM StoredPermission.DENY]
        "app1" "ext" "api" =
      ⟨[RuntimePermission.DENY_FOREVER], Termination.returned⟩ ∧
    CheckAPIAccessControl true
        [sampleApp StoredPermission.INVALID_STORED_PERM StoredPermission.INVALID_STORED_PERM]
        "app1" "ext" "api" =
      ⟨[RuntimePermission.INVALID_RUNTIME_PERM], Termination.returned⟩ ∧
    CheckAPIAccessControl true
        [sampleApp StoredPermission.INVALID_STORED_PERM StoredPermission.PROMPT]
        "app1" "ext" "api" =
      ⟨[RuntimePermission.INVALID_RUNTIME_PERM], Termination.returned⟩ :=
  ⟨C2_persistent_value_decides true
      [sampleApp StoredPermission.INVALID_STORED_PERM StoredPermission.ALLOW]
      "app1" "ext" "api"
      (sampleApp StoredPermission.INVALID_STORED_PERM StoredPermission.ALLOW)
      (by rfl) (by decide) (by decide) (by rfl),
   C2_persistent_value_decides true
      [sampleApp StoredPermission.INVALID_STORED_PERM StoredPermission.DENY]
      "app1" "ext" "api"
      (sampleApp StoredPermission.INVALID_STORED_PERM StoredPermission.DENY)
      (by rfl) (by decide) (by decide) (by rfl),
   C2_persistent_value_decides true
      [sampleApp StoredPermission.INVALID_STORED_PERM StoredPermission.INVALID_STORED_PERM]
      "app1" "ext" "api"
      (sampleApp StoredPermission.INVALID_STORED_PERM StoredPermission.INVALID_STORED_PERM)
      (by rfl) (by decide) (by decide) (by rfl),
   C2_persistent_value_decides true
      [sampleApp StoredPermission.INVALID_STORED_PERM StoredPermission.PROMPT]
      "app1" "ext" "api"
      (sampleApp StoredPermission.INVALID_STORED_PERM StoredPermission.PROMPT)
      (by rfl) (by decide) (by decide) (by rfl)⟩

/-- C3: when the id resolves to a running application that has not loaded the
extension, `CheckAPIAccessControl` delivers INVALID_RUNTIME_PERM (one callback
call, normal return) for every API name; nothing is assumed about the
permission tables or the SESSION and PERSISTENT values of the application. -/
theorem C3_extension_not_loaded (dcheck_is_on : Bool) (applications : List Application)
    (app_id extension_name api_name : String) (app : Application)
    (h_running : GetApplicationByID applications app_id = some app)
    (h_extension : app.ContainsExtension extension_name = false) :
    CheckAPIAccessControl dcheck_is_on applications app_id extension_name api_name =
      ⟨[RuntimePermission.INVALID_RUNTIME_PERM], Termination.returned⟩ := by
  simp [CheckAPIAccessControl, h_running, h_extension]

/-- C3 at a concrete registry: the application has loaded `ext` with `api`
registered and allowed in both scopes, and is asked about `api` of the
extension `other`, which it has not loaded. -/
theorem C3_extension_not_loaded_witness :
    CheckAPIAccessControl true [sampleApp StoredPermission.ALLOW StoredPermission.ALLOW]
        "app1" "other" "api" =
      ⟨[RuntimePermission.INVALID_RUNTIME_PERM], Termination.returned⟩ :=
  C3_extension_not_loaded true [sampleApp StoredPermission.ALLOW StoredPermission.ALLOW]
    "app1" "other" "api" (sampleApp StoredPermission.ALLOW StoredPermission.ALLOW)
    (by rfl) (by decide)

/-- C4, as stated, fails: in a build with `DCHECK` on, a running application
with the extension loaded, the permission name registered and a SESSION value
of PROMPT makes the call die in the `DCHECK` without any callback call. -/
theorem C4_counterexample :
    CheckAPIAccessControl true [sampleApp StoredPermission.PROMPT StoredPermission.ALLOW]
        "app1" "ext" "api" = ⟨[], Termination.fatal⟩ ∧
    ¬ ∃ d, CheckAPIAccessControl true
        [sampleApp StoredPermission.PROMPT StoredPermission.ALLOW]
        "app1" "ext" "api" = ⟨[d], Termination.returned⟩ := by
  have h : CheckAPIAccessControl true
      [sampleApp StoredPermission.PROMPT StoredPermission.ALLOW]
      "app1" "ext" "api" = ⟨[], Termination.fatal⟩ := by rfl
  refine ⟨h, ?_⟩
  rintro ⟨d, hd⟩
  rw [h] at hd
  cases hd

/-- C4, amended: for every registry, application id, extension name and API
name and every combination of SESSION and PERSISTENT values, except a SESSION
value of PROMPT in a build with `DCHECK` on, one call of
`CheckAPIAccessControl` calls the callback exactly once, with one of
ALLOW_SESSION, DENY_SESSION, ALLOW_FOREVER, DENY_FOREVER or
INVALID_RUNTIME_PERM, and returns normally. -/
theorem C4_callback_exactly_once (dcheck_is_on : Bool) (applications : List Application)
    (app_id extension_name api_name : String)
    (h : dcheck_is_on = false ∨
      ∀ app, GetApplicationByID applications app_id = some app →
        app.GetPermission PermissionType.SESSION_PERMISSION
          (app.GetRegisteredPermissionName extension_name api_name) ≠
            StoredPermission.PROMPT) :
    ∃ d, d ∈ deliverable ∧
      CheckAPIAccessControl dcheck_is_on applications app_id extension_name api_name =
        ⟨[d], Termination.returned⟩ := by
  unfold CheckAPIAccessControl
  cases h_running : GetApplicationByID applications app_id with
  | none => exact ⟨RuntimePermission.INVALID_RUNTIME_PERM, by decide, rfl⟩
  | some app =>
    have h_prompt : dcheck_is_on = false ∨
        app.GetPermission PermissionType.SESSION_PERMISSION
          (app.GetRegisteredPermissionName extension_name api_name) ≠
            StoredPermission.PROMPT := h.imp id (fun k => k app h_running)
    simp only [persistent_cases]
    cases h_extension : app.ContainsExtension extension_name with
    | false => exact ⟨RuntimePermission.INVALID_RUNTIME_PERM, by decide, by simp⟩
    | true =>
      by_cases h_len : (app.GetRegisteredPermissionName extension_name api_name).length = 0
      · exact ⟨RuntimePermission.INVALID_RUNTIME_PERM, by decide, by simp [h_len]⟩
      · cases h_session : app.GetPermission PermissionType.SESSION_PERMISSION
            (app.GetRegisteredPermissionName extension_name api_name) with
        | ALLOW => exact ⟨RuntimePermission.ALLOW_SESSION, by decide, by simp [h_len]⟩
        | DENY => exact ⟨RuntimePermission.DENY_SESSION, by decide, by simp [h_len]⟩
        | PROMPT =>
          have h_off : dcheck_is_on = false := by
            rcases h_prompt with h_off | h_ne
            · exact h_off
            · exact absurd h_session h_ne
          subst h_off
          cases h_persistent : app.GetPermission PermissionType.PERSISTENT_PERMISSION
              (app.GetRegisteredPermissionName extension_name api_name) with
          | ALLOW => exact ⟨RuntimePermission.ALLOW_FOREVER, by decide, by simp [h_len]⟩
          | DENY => exact ⟨RuntimePermission.DENY_FOREVER, by decide, by simp [h_len]⟩
          | PROMPT =>
            exact ⟨RuntimePermission.INVALID_RUNTIME_PERM, by decide, by simp [h_len]⟩
          | INVALID_STORED_PERM =>
            exact ⟨RuntimePermission.INVALID_RUNTIME_PERM, by decide, by simp [h_len]⟩
        | INVALID_STORED_PERM =>
          cases h_persistent : app.GetPermission PermissionType.PERSISTENT_PERMISSION
              (app.GetRegisteredPermissionName extension_name api_name) with
          | ALLOW => exact ⟨RuntimePermission.ALLOW_FOREVER, by decide, by simp [h_len]⟩
          | DENY => exact ⟨RuntimePermission.DENY_FOREVER, by decide, by simp [h_len]⟩
          | PROMPT =>
            exact ⟨RuntimePermission.INVALID_RUNTIME_PERM, by decide, by simp [h_len]⟩
          | INVALID_STORED_PERM =>
            exact ⟨RuntimePermission.INVALID_RUNTIME_PERM, by decide, by simp [h_len]⟩

/-- C4 amended, at the counterexample's registry in a build with `DCHECK`
compiled out: the SESSION value PROMPT falls through to the persistent scope. -/
theorem C4_callback_exactly_once_witness :
    ∃ d, d ∈ deliverable ∧
      CheckAPIAccessControl false [sampleApp StoredPermission.PROMPT StoredPermission.ALLOW]
        "app1" "ext" "api" = ⟨[d], Termination.returned⟩ :=
  C4_callback_exactly_once false [sampleApp StoredPermission.PROMPT StoredPermission.ALLOW]
    "app1" "ext" "api" (Or.inl rfl)

/-! ## Theorems: install and uninstall -/

/-- C5, as stated, fails: `app1` is installed, the archive exists and the
managed applications directory does not.  `Install` reports failure and writes
the existing id, but it has created the directory `data/applications`. -/
theorem C5_counterexample :
    (Install sampleEnv sampleWorld ["pkg.xpk"] "").1 = false ∧
    (Install sampleEnv sampleWorld ["pkg.xpk"] "").2.1 = "app1" ∧
    sampleWorld.storage.Contains "app1" = true ∧
    DirectoryExists sampleWorld.file_system ["data", "applications"] = false ∧
    DirectoryExists (Install sampleEnv sampleWorld ["pkg.xpk"] "").2.2.file_system
      ["data", "applications"] = true ∧
    (Install sampleEnv sampleWorld ["pkg.xpk"] "").2.2.file_system ≠
      sampleWorld.file_system := by
  refine ⟨by rfl, by rfl, by rfl, by rfl, by rfl, by decide⟩

/-- C5, amended: for every existing source path that is a valid packaged
archive (not a directory, non-empty derived id) whose id is already in the
durable store, when the managed applications directory exists or its creation
succeeds, `Install` reports failure, writes the existing id to its id output,
and leaves the state as it was (store, registry, observer calls) except that
the managed applications directory has been created when it was missing: no
extraction, deletion or move takes place. -/
theorem C5_already_installed (env : Env) (w : World) (path : FilePath) (id : String)
    (pkg : Package)
    (h_exists : PathExists w.file_system path = true)
    (h_archive : DirectoryExists w.file_system path = false)
    (h_package : env.package path = some pkg)
    (h_id : pkg.Id ≠ "")
    (h_contains : w.storage.Contains pkg.Id = true)
    (h_dir : DirectoryExists w.file_system (FilePath.Append env.data_path kApplicationsDir)
        = true ∨
      (CreateDirectory env.create_directory_ok w.file_system
        (FilePath.Append env.data_path kApplicationsDir)).1 = true) :
    Install env w path id =
      (false, pkg.Id,
        { w with file_system :=
            if DirectoryExists w.file_system (FilePath.Append env.data_path kApplicationsDir)
            then w.file_system
            else { w.file_system with
              directories := w.file_system.directories ++
                [FilePath.Append env.data_path kApplicationsDir] } }) := by
  by_cases h_data : DirectoryExists w.file_system
      (FilePath.Append env.data_path kApplicationsDir) = true
  · simp [Install, h_exists, h_data, h_archive, h_package, h_id, h_contains]
  · have h_created : (CreateDirectory env.create_directory_ok w.file_system
        (FilePath.Append env.data_path kApplicationsDir)).1 = true := by
      rcases h_dir with h | h
      · exact absurd h h_data
      · exact h
    simp only [Bool.not_eq_true] at h_data
    have h_ok : (env.create_directory_ok &&
        !PathExists w.file_system (FilePath.Append env.data_path kApplicationsDir)) = true := by
      by_contra h_no
      simp [CreateDirectory, h_data, h_no] at h_created
    have h_ne : path ≠ FilePath.Append env.data_path kApplicationsDir := by
      intro h_eq
      rw [← h_eq, h_exists] at h_ok
      simp at h_ok
    have h_still : DirectoryExists
        { w.file_system with directories := w.file_system.directories ++
            [FilePath.Append env.data_path kApplicationsDir] } path = false := by
      simp only [DirectoryExists, decide_eq_false_iff_not, List.mem_append,
        List.mem_singleton, not_or] at h_archive ⊢
      exact ⟨h_archive, h_ne⟩
    simp [Install, h_exists, h_data, CreateDirectory, h_ok, h_still, h_package, h_id,
      h_contains]

/-- C5 amended, at the state of the counterexample. -/
theorem C5_already_installed_witness :
    Install sampleEnv sampleWorld ["pkg.xpk"] "" =
      (false, "app1",
        { sampleWorld with file_system :=
            { directories := [["data", "applications"]], files := [["pkg.xpk"]] } }) :=
  C5_already_installed sampleEnv sampleWorld ["pkg.xpk"] ""
    { id := "app1", extract_dir := some ["tmp", "unpacked"] }
    (by rfl) (by rfl) (by rfl) (by decide) (by rfl) (Or.inr (by rfl))

/-- C6: when the durable store does not contain the id, `Uninstall` returns
failure and the whole state (store, file system, observer calls, registry) is
what it was before the call. -/
theorem C6_uninstall_unknown_id (env : Env) (w : World) (id : String)
    (h_absent : w.storage.Contains id = false) :
    Uninstall env w id = (false, w) := by
  simp [Uninstall, ApplicationStorage.RemoveApplication, h_absent]

/-- C6 at a concrete state: `app2` is not installed in `sampleWorld`. -/
theorem C6_uninstall_unknown_id_witness :
    Uninstall sampleEnv sampleWorld "app2" = (false, sampleWorld) :=
  C6_uninstall_unknown_id sampleEnv sampleWorld "app2" (by rfl)

/-- A refused `AddApplication` leaves the store as it was. -/
theorem add_application_failed (ok : Bool) (s : ApplicationStorage) (a : ApplicationData)
    (h : (s.AddApplication ok a).1 = false) : (s.AddApplication ok a).2 = s := by
  unfold ApplicationStorage.AddApplication at h ⊢
  split_ifs at h ⊢ <;> simp_all

/-- After a successful `RemoveApplication` the store no longer contains the id. -/
theorem remove_application_succeeded (ok : Bool) (s : ApplicationStorage) (id : String)
    (h : (s.RemoveApplication ok id).1 = true) :
    (s.RemoveApplication ok id).2.Contains id = false := by
  unfold ApplicationStorage.RemoveApplication at h ⊢
  split_ifs at h ⊢
  simp_all [ApplicationStorage.Contains, List.any_eq_false, List.mem_filter]

/-- A failing second half of `Install` persists nothing, notifies nobody and
launches nothing. -/
theorem install_load_failed (env : Env) (w : World) (unpacked_dir : FilePath)
    (app_id id : String)
    (h_fail : (Install.load env w unpacked_dir app_id id).1 = false) :
    (Install.load env w unpacked_dir app_id id).2.2.storage = w.storage ∧
    (Install.load env w unpacked_dir app_id id).2.2.notifications = w.notifications ∧
    (Install.load env w unpacked_dir app_id id).2.2.applications = w.applications ∧
    (Install.load env w unpacked_dir app_id id).2.2.next_ptr = w.next_ptr ∧
    (Install.load env w unpacked_dir app_id id).2.2.apps_loaded = w.apps_loaded ∧
    (Install.load env w unpacked_dir app_id id).2.2.load_observers = w.load_observers := by
  unfold Install.load at h_fail ⊢
  cases h_load : env.load_application unpacked_dir app_id with
  | error e => simp
  | ok application_data =>
    simp only [h_load] at h_fail ⊢
    cases h_init : env.init_application_permission application_data with
    | false => simp
    | true =>
      simp only [h_init] at h_fail ⊢
      cases h_added : (w.storage.AddApplication env.storage_write_ok application_data).1 with
      | false =>
        simp [h_added, add_application_failed _ _ _ h_added]
      | true =>
        exfalso
        simp only [h_added] at h_fail
        cases h_main : application_data.HasMainDocument with
        | false => simp [h_main] at h_fail
        | true =>
          simp only [h_main, Bool.not_true, Bool.false_eq_true, if_false, if_true] at h_fail
          generalize LaunchByID env _ _ = r at h_fail
          rcases r with ⟨_ | a, w1⟩ <;> simp at h_fail

/-- The first half of `Install` touches nothing but the file system: a
property holds of the result as soon as it holds of every failing return on a
state that differs from the initial one in the file system only, and of every
continuation with `Install.load` on such a state. -/
theorem install_shape (env : Env) (w : World) (path : FilePath) (id : String)
    (P : Bool × String × World → Prop)
    (h_stop : ∀ id1 fs, P (false, id1, { w with file_system := fs }))
    (h_load : ∀ fs dir app_id,
      P (Install.load env { w with file_system := fs } dir app_id id)) :
    P (Install env w path id) := by
  unfold Install
  split
  · exact h_stop _ w.file_system
  · lift_lets
    intros
    split
    · exact h_stop _ _
    · split
      · split
        · exact h_stop _ _
        · lift_lets
          intros
          split
          · exact h_stop _ _
          · split
            · exact h_stop _ _
            · split
              · exact h_stop _ _
              · split
                · exact h_stop _ _
                · exact h_load _ _ _
      · exact h_load _ _ _

/-- C8: whenever `Install` returns failure (in this build every failing return
lies before the record is persisted, or is the store refusing the record), the
durable store holds exactly the records it held before the call, the observers
have received no call, and nothing was launched: the registry, the address
counter, the `OnAppLoaded` calls and the load observers are unchanged. -/
theorem C8_failed_install_leaves_no_trace (env : Env) (w : World) (path : FilePath)
    (id : String)
    (h_fail : (Install env w path id).1 = false) :
    (Install env w path id).2.2.storage = w.storage ∧
    (Install env w path id).2.2.notifications = w.notifications ∧
    (Install env w path id).2.2.applications = w.applications ∧
    (Install env w path id).2.2.next_ptr = w.next_ptr ∧
    (Install env w path id).2.2.apps_loaded = w.apps_loaded ∧
    (Install env w path id).2.2.load_observers = w.load_observers := by
  revert h_fail
  apply install_shape env w path id (fun r => r.1 = false →
    r.2.2.storage = w.storage ∧ r.2.2.notifications = w.notifications ∧
    r.2.2.applications = w.applications ∧ r.2.2.next_ptr = w.next_ptr ∧
    r.2.2.apps_loaded = w.apps_loaded ∧ r.2.2.load_observers = w.load_observers)
  · intro id1 fs _
    simp
  · intro fs dir app_id h
    exact install_load_failed env { w with file_system := fs } dir app_id id h

/-- C8 at a concrete call: the archive is valid and not yet installed, but the
system refuses the move into the applications directory. -/
theorem C8_failed_install_leaves_no_trace_witness :
    (Install { sampleEnv with move_ok := false } sampleFreshWorld ["pkg.xpk"] "").1 = false ∧
    (Install { sampleEnv with move_ok := false } sampleFreshWorld
      ["pkg.xpk"] "").2.2.storage = sampleFreshWorld.storage ∧
    (Install { sampleEnv with move_ok := false } sampleFreshWorld
      ["pkg.xpk"] "").2.2.notifications = sampleFreshWorld.notifications ∧
    (Install { sampleEnv with move_ok := false } sampleFreshWorld
      ["pkg.xpk"] "").2.2.applications = sampleFreshWorld.applications :=
  have h := C8_failed_install_leaves_no_trace { sampleEnv with move_ok := false }
    sampleFreshWorld ["pkg.xpk"] "" (by rfl)
  ⟨by rfl, h.1, h.2.1, h.2.2.1⟩

/-- C9: when `Uninstall` removes the durable record successfully and the
resource directory exists but its recursive deletion fails, `Uninstall`
reports failure, the store afterwards is the store left by the removal, which
no longer contains the id, and no observer is notified. -/
theorem C9_cleanup_failure_keeps_removal (env : Env) (w : World) (id : String)
    (h_removed : (w.storage.RemoveApplication env.storage_write_ok id).1 = true)
    (h_dir : DirectoryExists w.file_system
      (FilePath.Append (FilePath.Append env.data_path kApplicationsDir) id) = true)
    (h_delete : (DeleteFile env.delete_file_ok w.file_system
      (FilePath.Append (FilePath.Append env.data_path kApplicationsDir) id) true).1 = false) :
    (Uninstall env w id).1 = false ∧
    (Uninstall env w id).2.storage =
      (w.storage.RemoveApplication env.storage_write_ok id).2 ∧
    (Uninstall env w id).2.storage.Contains id = false ∧
    (Uninstall env w id).2.notifications = w.notifications := by
  have h_gone := remove_application_succeeded env.storage_write_ok w.storage id h_removed
  simp [Uninstall, h_removed, h_dir, h_delete, h_gone]

/-- C9 at a concrete call: `app1` is installed with its resource directory on
disk, and the system refuses the deletion. -/
theorem C9_cleanup_failure_keeps_removal_witness :
    sampleInstalledWorld.storage.Contains "app1" = true ∧
    (Uninstall { sampleEnv with delete_file_ok := false } sampleInstalledWorld "app1").1
      = false ∧
    (Uninstall { sampleEnv with delete_file_ok := false } sampleInstalledWorld
      "app1").2.storage.Contains "app1" = false :=
  have h := C9_cleanup_failure_keeps_removal { sampleEnv with delete_file_ok := false }
    sampleInstalledWorld "app1" (by rfl) (by rfl) (by rfl)
  ⟨by rfl, h.1, h.2.2.1⟩

/-! ## Theorems: the registry -/

/-- Searching a list extended at the back finds the new element when no
earlier element satisfies the test and the new one does. -/
theorem find_push_back {α : Type} (p : α → Bool) (l : List α) (a : α)
    (h_none : ∀ x ∈ l, p x = false) (h_new : p a = true) :
    (l ++ [a]).find? p = some a := by
  have h_front : l.find? p = none := by
    rw [List.find?_eq_none]
    intro x hx
    simp [h_none x hx]
  simp [List.find?_append, h_front, List.find?_cons, h_new]

/-- When addresses are pairwise distinct, erasing the first object at address
`k` leaves no object at address `k`. -/
theorem erase_by_ptr (k : Nat) (l : List Application)
    (h_nodup : (l.map Application.ptr).Nodup) :
    ∀ a ∈ l.eraseP (fun x => x.ptr == k), a.ptr ≠ k := by
  induction l with
  | nil => simp
  | cons x xs ih =>
    rw [List.map_cons, List.nodup_cons] at h_nodup
    intro a ha
    by_cases hx : x.ptr = k
    · rw [List.eraseP_cons_of_pos (by simpa using hx)] at ha
      intro hak
      apply h_nodup.1
      rw [hx, ← hak]
      exact List.mem_map_of_mem _ ha
    · rw [List.eraseP_cons_of_neg (by simpa using hx)] at ha
      rcases List.mem_cons.mp ha with h | h
      · rw [h]
        exact hx
      · exact ih h_nodup.2 a h

/-- Terminating a registered instance that is the only one with its id, in a
well-formed state, returns and leaves no instance with that id. -/
theorem terminate_then_find (w : World) (app : Application)
    (h_wf : w.WellFormed) (h_registered : app ∈ w.applications)
    (h_only : ∀ a ∈ w.applications, a.id = app.id → a.ptr = app.ptr) :
    ∃ w1, OnApplicationTerminated w app = Exec.returned () w1 ∧
      GetApplicationByID w1.applications app.id = none := by
  have h_left : ∀ a ∈ w.applications.eraseP (fun x => x.ptr == app.ptr),
      ¬ (decide (app.id = a.id) = true) := by
    intro a ha h_id
    have h_ptr := erase_by_ptr app.ptr w.applications h_wf.1 a ha
    exact h_ptr (h_only a (List.mem_of_mem_eraseP ha) (of_decide_eq_true h_id).symm)
  unfold OnApplicationTerminated
  cases h_found : w.applications.find? (fun a => a.ptr == app.ptr) with
  | none =>
    rw [List.find?_eq_none] at h_found
    exact absurd (by simp) (h_found app h_registered)
  | some found =>
    simp only [FOR_EACH_OBSERVER]
    split
    · exact ⟨_, rfl, by simpa [GetApplicationByID] using h_left⟩
    · exact ⟨_, rfl, by simpa [GetApplicationByID] using h_left⟩

/-- C7, as stated, fails: the registry holds a running instance of `app1` at
address 1; a successful `Launch` of the same record registers a second
instance at address 2, yet `GetApplicationByID` returns the instance at address
1, and it still returns that one (not none) after the new instance is
unregistered. -/
theorem C7_counterexample :
    ∃ app w1 w2,
      Launch sampleEnv sampleRunningWorld sampleData LaunchEntryPoints.Default
        = (some app, w1) ∧
      app.ptr = 2 ∧ app.id = "app1" ∧
      (GetApplicationByID w1.applications app.id).map Application.ptr = some 1 ∧
      OnApplicationTerminated w1 app = Exec.returned () w2 ∧
      (GetApplicationByID w2.applications app.id).map Application.ptr = some 1 :=
  ⟨_, _, _, rfl, rfl, rfl, rfl, rfl, rfl⟩

/-- C7, amended: in a well-formed registry state that holds no running
instance with the id of the record being launched, a successful `Launch`
registers the new instance and `GetApplicationByID` with its id returns that
very instance; and in every later well-formed state where that instance is
registered and no other instance has its id, `OnApplicationTerminated` of the
instance returns and `GetApplicationByID` with its id then returns none. -/
theorem C7_find_after_register_unregister (env : Env) (w : World)
    (application_data : ApplicationData) (entry_points : LaunchEntryPoints)
    (h_launch : env.application_launch_ok = true)
    (h_unique : ∀ a ∈ w.applications, a.id ≠ application_data.ID) :
    (Launch env w application_data entry_points).1 =
      some (Launch.application env w application_data entry_points) ∧
    GetApplicationByID (Launch env w application_data entry_points).2.applications
      (Launch.application env w application_data entry_points).id =
      some (Launch.application env w application_data entry_points) ∧
    ∀ w1 : World, w1.WellFormed →
      Launch.application env w application_data entry_points ∈ w1.applications →
      (∀ a ∈ w1.applications,
        a.id = (Launch.application env w application_data entry_points).id →
        a.ptr = (Launch.application env w application_data entry_points).ptr) →
      ∃ w2, OnApplicationTerminated w1
          (Launch.application env w application_data entry_points) = Exec.returned () w2 ∧
        GetApplicationByID w2.applications
          (Launch.application env w application_data entry_points).id = none := by
  refine ⟨by simp [Launch, h_launch, Launch.application], ?_, ?_⟩
  · simp only [Launch, h_launch, Bool.not_true, Bool.false_eq_true, if_false,
      FOR_EACH_OBSERVER, GetApplicationByID]
    apply find_push_back
    · intro x hx
      have := h_unique x hx
      simp only [Launch.application, Application.id, decide_eq_false_iff_not]
      exact fun h => this h.symm
    · simp [Launch.application, Application.id]
  · intro w1 h_wf h_registered h_only
    exact terminate_then_find w1 _ h_wf h_registered h_only

/-- C7 amended, at a concrete state: `app0` runs at address 1, `app1` is
launched and gets address 2, is found by its id, and after its termination
right after the launch the lookup of `app1` yields none. -/
theorem C7_find_after_register_unregister_witness :
    (GetApplicationByID
      (Launch sampleEnv sampleOtherWorld sampleData LaunchEntryPoints.Default).2.applications
      "app1").map Application.ptr = some 2 ∧
    ∃ w2, OnApplicationTerminated
        (Launch sampleEnv sampleOtherWorld sampleData LaunchEntryPoints.Default).2
        (Launch.application sampleEnv sampleOtherWorld sampleData LaunchEntryPoints.Default)
          = Exec.returned () w2 ∧
      GetApplicationByID w2.applications "app1" = none :=
  have h := C7_find_after_register_unregister sampleEnv sampleOtherWorld sampleData
    LaunchEntryPoints.Default (by rfl)
    (by
      intro a ha
      rw [List.mem_singleton.mp ha]
      decide)
  ⟨by rfl,
   h.2.2 (Launch sampleEnv sampleOtherWorld sampleData LaunchEntryPoints.Default).2
    ⟨by decide, by
      intro a ha
      rcases List.mem_cons.mp ha with h1 | h1
      · rw [h1]
        decide
      · rw [List.mem_singleton.mp h1]
        decide⟩
    (List.mem_cons_of_mem _ (List.mem_singleton.mpr rfl))
    (by
      intro a ha
      rcases List.mem_cons.mp ha with h1 | h1
      · rw [h1]
        decide
      · rw [List.mem_singleton.mp h1]
        decide)⟩

/-- C10: when no registered instance lives at the address of the given
application, `OnApplicationTerminated` ends in the fatal `CHECK`, and the state
at that moment is the state before the call: the registry is unchanged, no
observer has been called and no quit task has been posted. -/
theorem C10_unregister_unknown_is_fatal (w : World) (application : Application)
    (h_absent : ∀ a ∈ w.applications, a.ptr ≠ application.ptr) :
    OnApplicationTerminated w application = Exec.fatal w := by
  have h_found : w.applications.find? (fun a => a.ptr == application.ptr) = none := by
    rw [List.find?_eq_none]
    intro x hx
    simpa using h_absent x hx
  simp [OnApplicationTerminated, h_found]

/-- C10 at a concrete state: the registry holds the instance at address 1 and
the instance at address 5 is being unregistered. -/
theorem C10_unregister_unknown_is_fatal_witness :
    OnApplicationTerminated sampleRunningWorld
        { sampleApp StoredPermission.ALLOW StoredPermission.ALLOW with ptr := 5 } =
      Exec.fatal sampleRunningWorld :=
  C10_unregister_unknown_is_fatal sampleRunningWorld
    { sampleApp StoredPermission.ALLOW StoredPermission.ALLOW with ptr := 5 }
    (by
      intro a ha
      rw [List.mem_singleton.mp ha]
      decide)

/-! ## Theorems: launch failure, unresolved lookups, unregistering -/

/-- C11: when the content loading step reports failure, `Launch` returns no
application, the registry afterwards equals the registry before the call (the
same instances in the same order), and no observer call (in particular no
`DidLaunchApplication`) has been added. -/
theorem C11_failed_launch_restores_registry (env : Env) (w : World)
    (application_data : ApplicationData) (entry_points : LaunchEntryPoints)
    (h_failed : env.application_launch_ok = false) :
    (Launch env w application_data entry_points).1 = none ∧
    (Launch env w application_data entry_points).2.applications = w.applications ∧
    (Launch env w application_data entry_points).2.notifications = w.notifications := by
  simp [Launch, h_failed]

/-- C11 at a concrete state: `app0` runs, the launch of `app1` fails. -/
theorem C11_failed_launch_restores_registry_witness :
    (Launch { sampleEnv with application_launch_ok := false } sampleOtherWorld sampleData
      LaunchEntryPoints.Default).1 = none ∧
    (Launch { sampleEnv with application_launch_ok := false } sampleOtherWorld sampleData
      LaunchEntryPoints.Default).2.applications = sampleOtherWorld.applications ∧
    (Launch { sampleEnv with application_launch_ok := false } sampleOtherWorld sampleData
      LaunchEntryPoints.Default).2.notifications = sampleOtherWorld.notifications :=
  C11_failed_launch_restores_registry { sampleEnv with application_launch_ok := false }
    sampleOtherWorld sampleData LaunchEntryPoints.Default (by rfl)

/-- C14: `CheckAPIAccessControl` delivers INVALID_RUNTIME_PERM (one callback
call, normal return) when no running application has the id, and also when the
id resolves to a running application that has the extension loaded but whose
registered permission name for the API name is empty.  Nothing is assumed about
the SESSION and PERSISTENT values, so the answer does not depend on them. -/
theorem C14_unresolved_is_invalid (dcheck_is_on : Bool) (applications : List Application)
    (app_id extension_name api_name : String)
    (h : GetApplicationByID applications app_id = none ∨
      ∃ app, GetApplicationByID applications app_id = some app ∧
        app.ContainsExtension extension_name = true ∧
        app.GetRegisteredPermissionName extension_name api_name = "") :
    CheckAPIAccessControl dcheck_is_on applications app_id extension_name api_name =
      ⟨[RuntimePermission.INVALID_RUNTIME_PERM], Termination.returned⟩ := by
  rcases h with h_none | ⟨app, h_running, h_extension, h_name⟩
  · simp [CheckAPIAccessControl, h_none]
  · simp [CheckAPIAccessControl, h_running, h_extension, h_name]

/-- C14 at concrete registries: an id nobody runs under, and an application
with the extension loaded and nothing registered, both scopes holding ALLOW. -/
theorem C14_unresolved_is_invalid_witness :
    CheckAPIAccessControl true [sampleApp StoredPermission.ALLOW StoredPermission.ALLOW]
        "app2" "ext" "api" =
      ⟨[RuntimePermission.INVALID_RUNTIME_PERM], Termination.returned⟩ ∧
    CheckAPIAccessControl true [sampleUnregisteredApp] "app1" "ext" "api" =
      ⟨[RuntimePermission.INVALID_RUNTIME_PERM], Termination.returned⟩ :=
  ⟨C14_unresolved_is_invalid true [sampleApp StoredPermission.ALLOW StoredPermission.ALLOW]
      "app2" "ext" "api" (Or.inl (by rfl)),
   C14_unresolved_is_invalid true [sampleUnregisteredApp] "app1" "ext" "api"
      (Or.inr ⟨sampleUnregisteredApp, by rfl, by decide, by rfl⟩)⟩

/-- C15: in a registry with pairwise distinct addresses that holds the
instance between the instances `before` and `after`, `OnApplicationTerminated`
returns; every observer receives `WillDestroyApplication` for the instance
once, in a state that still holds the instance; the registry afterwards is
`before` followed by `after`; and one quit task is posted when that registry is
empty, none otherwise. -/
theorem C15_unregister_registered (w : World) (application : Application)
    (before after : List Application)
    (h_distinct : (w.applications.map Application.ptr).Nodup)
    (h_registry : w.applications = before ++ application :: after) :
    application ∈ (FOR_EACH_OBSERVER w
      (fun o => Notification.WillDestroyApplication o application.ptr)).applications ∧
    OnApplicationTerminated w application =
      Exec.returned ()
        { FOR_EACH_OBSERVER w
            (fun o => Notification.WillDestroyApplication o application.ptr) with
          applications := before ++ after,
          quit_tasks := if (before ++ after).isEmpty then w.quit_tasks + 1
                        else w.quit_tasks } := by
  have h_mem : application ∈ w.applications := by
    rw [h_registry]
    simp
  have h_before : ∀ b ∈ before, ¬ ((fun a : Application => a.ptr == application.ptr) b = true) := by
    intro b hb h_eq
    rw [h_registry, List.map_append, List.map_cons] at h_distinct
    have h_disjoint := (List.nodup_append.mp h_distinct).2.2
    have h_ptr : b.ptr = application.ptr := by simpa using h_eq
    exact h_disjoint (List.mem_map_of_mem _ hb)
      (by rw [h_ptr]; exact List.mem_cons_self _ _)
  have h_erase : w.applications.eraseP (fun a => a.ptr == application.ptr) =
      before ++ after := by
    rw [h_registry, List.eraseP_append_right _ h_before,
      List.eraseP_cons_of_pos (by simp)]
  refine ⟨by simpa [FOR_EACH_OBSERVER] using h_mem, ?_⟩
  unfold OnApplicationTerminated
  cases h_found : w.applications.find? (fun a => a.ptr == application.ptr) with
  | none =>
    rw [List.find?_eq_none] at h_found
    exact absurd (by simp) (h_found application h_mem)
  | some found =>
    simp only [FOR_EACH_OBSERVER, h_erase]
    split <;> rfl

/-- C15 at a concrete registry of three instances, the middle one being
unregistered: the outer two stay, in their order, and no quit task is posted. -/
theorem C15_unregister_registered_witness :
    OnApplicationTerminated { sampleWorld with applications := sampleThreeApps }
        { sampleApp StoredPermission.ALLOW StoredPermission.ALLOW with ptr := 3 } =
      Exec.returned ()
        { sampleWorld with
          applications := [sampleOtherApp, { sampleOtherApp with ptr := 4 }],
          notifications := [Notification.WillDestroyApplication 10 3,
                            Notification.WillDestroyApplication 11 3],
          quit_tasks := 0 } :=
  (C15_unregister_registered { sampleWorld with applications := sampleThreeApps }
    { sampleApp StoredPermission.ALLOW StoredPermission.ALLOW with ptr := 3 }
    [sampleOtherApp] [{ sampleOtherApp with ptr := 4 }] (by decide) (by rfl)).2

/-! ## Theorems: the active application -/

/-- In a list with pairwise distinct addresses, the first element of a sublist
is the first element of the list that the sublist still holds. -/
theorem find_still_registered (registry history : List Application)
    (h_sub : List.Sublist registry history)
    (h_distinct : (history.map Application.ptr).Nodup) :
    history.find? (StillRegistered registry) = registry.head? := by
  induction h_sub with
  | slnil => rfl
  | @cons l₁ l₂ a h_rest ih =>
    rw [List.map_cons, List.nodup_cons] at h_distinct
    have h_gone : StillRegistered l₁ a = false := by
      unfold StillRegistered
      rw [List.any_eq_false]
      intro b hb h_eq
      apply h_distinct.1
      have h_ptr : b.ptr = a.ptr := by simpa using h_eq
      rw [← h_ptr]
      exact List.mem_map_of_mem _ (h_rest.subset hb)
    rw [List.find?_cons, h_gone]
    exact ih h_distinct.2
  | @cons₂ l₁ l₂ a h_rest _ =>
    have h_here : StillRegistered (a :: l₁) a = true := by
      simp [StillRegistered]
    rw [List.find?_cons, h_here]
    rfl

/-- Along every run the registry is a sublist of the launch history, the
addresses in the history are pairwise distinct, and all lie below `next_ptr`. -/
theorem reachable_invariant (w : World) (history : List Application)
    (h : Reachable w history) :
    List.Sublist w.applications history ∧ (history.map Application.ptr).Nodup ∧
      ∀ a ∈ history, a.ptr < w.next_ptr := by
  induction h with
  | empty w h_empty =>
    rw [h_empty]
    exact ⟨List.Sublist.slnil, List.nodup_nil, by simp⟩
  | launched env w history application_data entry_points application w1 _ h_launch ih =>
    obtain ⟨h_sub, h_distinct, h_below⟩ := ih
    unfold Launch at h_launch
    cases h_ok : env.application_launch_ok with
    | false => simp [h_ok] at h_launch
    | true =>
      simp only [h_ok, Bool.not_true, Bool.false_eq_true, ↓reduceIte, Prod.mk.injEq,
        Option.some.injEq] at h_launch
      obtain ⟨h_app, h_w1⟩ := h_launch
      subst h_w1
      subst h_app
      refine ⟨?_, ?_, ?_⟩
      · simp only [FOR_EACH_OBSERVER]
        exact List.Sublist.append h_sub (List.Sublist.refl _)
      · rw [List.map_append, List.nodup_append]
        refine ⟨h_distinct, by simp, ?_⟩
        intro k hk hk2
        rcases List.mem_map.mp hk with ⟨a, ha, rfl⟩
        have h_lt := h_below a ha
        simp [Launch.application] at hk2
        omega
      · intro a ha
        rcases List.mem_append.mp ha with h1 | h1
        · have := h_below a h1
          simp only [FOR_EACH_OBSERVER]
          omega
        · rw [List.mem_singleton.mp h1]
          simp [FOR_EACH_OBSERVER, Launch.application]
  | launch_failed env w history application_data entry_points w1 _ h_launch ih =>
    obtain ⟨h_sub, h_distinct, h_below⟩ := ih
    unfold Launch at h_launch
    cases h_ok : env.application_launch_ok with
    | true => simp [h_ok] at h_launch
    | false =>
      simp only [h_ok, Bool.not_false, ↓reduceIte, Prod.mk.injEq, true_and] at h_launch
      subst h_launch
      refine ⟨by simpa using h_sub, h_distinct, ?_⟩
      intro a ha
      have := h_below a ha
      simp only
      omega
  | terminated w history application w1 _ h_terminated ih =>
    obtain ⟨h_sub, h_distinct, h_below⟩ := ih
    unfold OnApplicationTerminated at h_terminated
    cases h_found : w.applications.find? (fun a => a.ptr == application.ptr) with
    | none => simp [h_found] at h_terminated
    | some found =>
      simp only [h_found, FOR_EACH_OBSERVER] at h_terminated
      have h_erased : List.Sublist
          (w.applications.eraseP (fun a => a.ptr == application.ptr)) history :=
        (List.eraseP_sublist _).trans h_sub
      split at h_terminated
      · simp only [Exec.returned.injEq, true_and] at h_terminated
        subst h_terminated
        exact ⟨h_erased, h_distinct, h_below⟩
      · simp only [Exec.returned.injEq, true_and] at h_terminated
        subst h_terminated
        exact ⟨h_erased, h_distinct, h_below⟩

/-- C16: in every state reached from an empty registry by calls of `Launch`
(successful or failed) and returning calls of `OnApplicationTerminated`,
`GetActiveApplication` returns the first instance of the launch history
(oldest first) that is still registered, that is the earliest launched one
among those still registered, and it returns none exactly when the registry
is empty. -/
theorem C16_active_is_earliest_registered (w : World) (history : List Application)
    (h_run : Reachable w history) :
    GetActiveApplication w.applications =
      history.find? (StillRegistered w.applications) ∧
    (GetActiveApplication w.applications = none ↔ w.applications = []) := by
  obtain ⟨h_sub, h_distinct, _⟩ := reachable_invariant w history h_run
  have h_head : GetActiveApplication w.applications = w.applications.head? := by
    unfold GetActiveApplication
    cases w.applications <;> simp
  constructor
  · rw [h_head, find_still_registered _ _ h_sub h_distinct]
  · rw [h_head]
    cases w.applications <;> simp

/-- C16 at a concrete run: two launches of `app1` (addresses 2 and 3), a
failed launch, and the termination of the first instance; the active
application is then the first instance of the history still registered, the
one at address 3. -/
theorem C16_active_is_earliest_registered_witness :
    (GetActiveApplication sampleRun4.applications =
      [sampleFirst, sampleSecond].find? (StillRegistered sampleRun4.applications) ∧
    (GetActiveApplication sampleRun4.applications = none ↔ sampleRun4.applications = [])) ∧
    ([sampleFirst, sampleSecond].find? (StillRegistered sampleRun4.applications)).map
      Application.ptr = some 3 :=
  have h1 : Reachable sampleRun1 ([] ++ [sampleFirst]) :=
    Reachable.launched sampleEnv sampleWorld [] sampleData LaunchEntryPoints.Default
      sampleFirst sampleRun1 (Reachable.empty sampleWorld rfl) rfl
  have h2 : Reachable sampleRun2 ([sampleFirst] ++ [sampleSecond]) :=
    Reachable.launched sampleEnv sampleRun1 [sampleFirst] sampleData
      LaunchEntryPoints.Default sampleSecond sampleRun2 h1 rfl
  have h3 : Reachable sampleRun3 [sampleFirst, sampleSecond] :=
    Reachable.launch_failed { sampleEnv with application_launch_ok := false } sampleRun2
      [sampleFirst, sampleSecond] sampleData LaunchEntryPoints.Default sampleRun3 h2 rfl
  have h4 : Reachable sampleRun4 [sampleFirst, sampleSecond] :=
    Reachable.terminated sampleRun3 [sampleFirst, sampleSecond] sampleFirst sampleRun4 h3 rfl
  ⟨C16_active_is_earliest_registered sampleRun4 [sampleFirst, sampleSecond] h4, by rfl⟩

/-! ## Theorems: registration, unreachable markers, permission names -/

/-- C18: the service's `RegisterPermissions` returns false and makes no call
of `Application::RegisterPermissions` when no running application has the id,
and when the application the id resolves to has not loaded the extension;
otherwise it makes exactly one such call, on that application with the given
extension name and table, and returns its result. -/
theorem C18_register_permissions (applications : List Application)
    (app_id extension_name perm_table : String) :
    (GetApplicationByID applications app_id = none →
      RegisterPermissions applications app_id extension_name perm_table = (false, [])) ∧
    (∀ app, GetApplicationByID applications app_id = some app →
      (app.ContainsExtension extension_name = false →
        RegisterPermissions applications app_id extension_name perm_table = (false, [])) ∧
      (app.ContainsExtension extension_name = true →
        RegisterPermissions applications app_id extension_name perm_table =
          (app.RegisterPermissions extension_name perm_table,
            [(app.ptr, extension_name, perm_table)]))) := by
  refine ⟨?_, ?_⟩
  · intro h_none
    simp [RegisterPermissions, h_none]
  · intro app h_running
    constructor
    · intro h_extension
      simp [RegisterPermissions, h_running, h_extension]
    · intro h_extension
      simp [RegisterPermissions, h_running, h_extension]

/-- C18 at concrete registries: an id nobody runs under, an extension the
application has not loaded, and a loaded extension. -/
theorem C18_register_permissions_witness :
    RegisterPermissions [sampleOtherApp] "app1" "ext" "table" = (false, []) ∧
    RegisterPermissions [sampleOtherApp] "app0" "other" "table" = (false, []) ∧
    RegisterPermissions [sampleOtherApp] "app0" "ext" "table" =
      (true, [(1, "ext", "table")]) :=
  ⟨(C18_register_permissions [sampleOtherApp] "app1" "ext" "table").1 (by rfl),
   ((C18_register_permissions [sampleOtherApp] "app0" "other" "table").2
      sampleOtherApp (by rfl)).1 (by decide),
   ((C18_register_permissions [sampleOtherApp] "app0" "ext" "table").2
      sampleOtherApp (by rfl)).2 (by decide)⟩

/-- C19: when the SESSION value of the application the id resolves to is not
PROMPT (it is ALLOW, DENY or UNSET; the PERSISTENT value is arbitrary), the
build in which `DCHECK` and `NOTREACHED` are fatal returns normally, so neither
marker is reached and the `DCHECK` holds; and it delivers what the build
without these checks delivers. -/
theorem C19_markers_not_reached (applications : List Application)
    (app_id extension_name api_name : String)
    (h_session : ∀ app, GetApplicationByID applications app_id = some app →
      app.GetPermission PermissionType.SESSION_PERMISSION
        (app.GetRegisteredPermissionName extension_name api_name) ≠
          StoredPermission.PROMPT) :
    (CheckAPIAccessControl true applications app_id extension_name api_name).termination =
      Termination.returned ∧
    CheckAPIAccessControl true applications app_id extension_name api_name =
      CheckAPIAccessControl false applications app_id extension_name api_name := by
  unfold CheckAPIAccessControl
  cases h_running : GetApplicationByID applications app_id with
  | none => exact ⟨rfl, rfl⟩
  | some app =>
    have h_ne := h_session app h_running
    simp only [persistent_cases]
    cases h_extension : app.ContainsExtension extension_name with
    | false => simp
    | true =>
      by_cases h_len : (app.GetRegisteredPermissionName extension_name api_name).length = 0
      · simp [h_len]
      · cases h_value : app.GetPermission PermissionType.SESSION_PERMISSION
            (app.GetRegisteredPermissionName extension_name api_name) with
        | ALLOW => simp [h_len]
        | DENY => simp [h_len]
        | PROMPT => exact absurd h_value h_ne
        | INVALID_STORED_PERM => simp [h_len]

/-- C19 at a concrete registry: session UNSET over persistent PROMPT. -/
theorem C19_markers_not_reached_witness :
    (CheckAPIAccessControl true
        [sampleApp StoredPermission.INVALID_STORED_PERM StoredPermission.PROMPT]
        "app1" "ext" "api").termination = Termination.returned ∧
    CheckAPIAccessControl true
        [sampleApp StoredPermission.INVALID_STORED_PERM StoredPermission.PROMPT]
        "app1" "ext" "api" =
      CheckAPIAccessControl false
        [sampleApp StoredPermission.INVALID_STORED_PERM StoredPermission.PROMPT]
        "app1" "ext" "api" :=
  C19_markers_not_reached
    [sampleApp StoredPermission.INVALID_STORED_PERM StoredPermission.PROMPT]
    "app1" "ext" "api"
    (by
      intro app h_running
      have h_app : sampleApp StoredPermission.INVALID_STORED_PERM StoredPermission.PROMPT
          = app := Option.some.inj h_running
      rw [← h_app]
      decide)

/-- C20: for each of the four stored permission values, `StringToStoredPerm`
maps the name given by `StoredPermToString` back to the value;
`StoredPermToString` answers for `INVALID_STORED_PERM` with the empty string,
which decodes to `INVALID_STORED_PERM`, and reads the table for the other
values only, at an index below its three entries. -/
theorem C20_stored_permission_round_trip (p : StoredPermission) :
    (∃ name, StoredPermToString p = some name ∧ StringToStoredPerm name = p) ∧
    (p = StoredPermission.INVALID_STORED_PERM ∨ p.value < StoredPermissionStr.length) ∧
    StoredPermissionStr.length = 3 ∧
    StoredPermToString StoredPermission.INVALID_STORED_PERM = some "" ∧
    StringToStoredPerm "" = StoredPermission.INVALID_STORED_PERM := by
  refine ⟨?_, ?_, by rfl, by rfl, by decide⟩
  · cases p
    · exact ⟨"ALLOW", by rfl, by decide⟩
    · exact ⟨"DENY", by rfl, by decide⟩
    · exact ⟨"PROMPT", by rfl, by decide⟩
    · exact ⟨"", by rfl, by decide⟩
  · cases p
    · exact Or.inr (by decide)
    · exact Or.inr (by decide)
    · exact Or.inr (by decide)
    · exact Or.inl rfl

/-! ## Theorems: a successful install without main document -/

/-- The first half of `Install` touches nothing but the file system. -/
theorem unpack_shape (env : Env) (w : World) (path : FilePath) (id : String)
    (P : Except (Bool × String × World) (FilePath × String × World) → Prop)
    (h_stop : ∀ id1 fs, P (Except.error (false, id1, { w with file_system := fs })))
    (h_ok : ∀ fs dir app_id, P (Except.ok (dir, app_id, { w with file_system := fs }))) :
    P (Install.unpack env w path id) := by
  unfold Install.unpack
  split
  · exact h_stop _ w.file_system
  · lift_lets
    intros
    split
    · exact h_stop _ _
    · split
      · split
        · exact h_stop _ _
        · lift_lets
          intros
          split
          · exact h_stop _ _
          · split
            · exact h_stop _ _
            · split
              · exact h_stop _ _
              · split
                · exact h_stop _ _
                · exact h_ok _ _ _
      · exact h_ok _ _ _

/-- The function `Install` is its first half followed by `Install.load`. -/
theorem install_eq_unpack (env : Env) (w : World) (path : FilePath) (id : String) :
    Install env w path id =
      match Install.unpack env w path id with
      | Except.error r => r
      | Except.ok (dir, app_id, w1) => Install.load env w1 dir app_id id := by
  unfold Install Install.unpack
  split
  · rfl
  · lift_lets
    intros
    split
    · rfl
    · split
      · split
        · rfl
        · lift_lets
          intros
          split
          · rfl
          · split
            · rfl
            · split
              · rfl
              · split
                · rfl
                · rfl
      · rfl

/-- When the first half of `Install` succeeds, the state it hands on differs
from the initial one in the file system only. -/
theorem unpack_frame (env : Env) (w : World) (path : FilePath) (id : String)
    (dir : FilePath) (app_id : String) (w1 : World)
    (h_source : Install.unpack env w path id = Except.ok (dir, app_id, w1)) :
    w1 = { w with file_system := w1.file_system } := by
  revert h_source
  apply unpack_shape env w path id (fun r =>
    r = Except.ok (dir, app_id, w1) → w1 = { w with file_system := w1.file_system })
  · intro id1 fs h
    cases h
  · intro fs dir1 app_id1 h
    cases h
    rfl

/-- An accepted `AddApplication` appends the record to the store. -/
theorem add_application_succeeded (ok : Bool) (s : ApplicationStorage) (a : ApplicationData)
    (h : (s.AddApplication ok a).1 = true) :
    (s.AddApplication ok a).2 = { records := s.records ++ [a] } := by
  unfold ApplicationStorage.AddApplication at h ⊢
  split_ifs at h ⊢
  rfl

/-- C12: when the source passes the first half of `Install` (it exists, the
applications directory is there or gets created, and an archive is valid, not
yet installed and unpacked and moved with success), the loaded record declares
no main document, and permission initialisation and persisting succeed, then
`Install` returns success, writes the id of the record to its id output, the
store afterwards holds the old records followed by the record and contains its
id, nothing is launched (registry, address counter, `OnAppLoaded` calls and
load observers are unchanged), and the observer calls added are exactly one
`OnApplicationInstalled` with that id per registered observer. -/
theorem C12_install_without_main_document (env : Env) (w : World) (path : FilePath)
    (id : String) (dir : FilePath) (app_id : String) (w1 : World)
    (application_data : ApplicationData)
    (h_source : Install.unpack env w path id = Except.ok (dir, app_id, w1))
    (h_load : env.load_application dir app_id = Except.ok application_data)
    (h_main : application_data.HasMainDocument = false)
    (h_init : env.init_application_permission application_data = true)
    (h_add : (w.storage.AddApplication env.storage_write_ok application_data).1 = true) :
    (Install env w path id).1 = true ∧
    (Install env w path id).2.1 = application_data.ID ∧
    (Install env w path id).2.2.storage.records = w.storage.records ++ [application_data] ∧
    (Install env w path id).2.2.storage.Contains application_data.ID = true ∧
    (Install env w path id).2.2.applications = w.applications ∧
    (Install env w path id).2.2.next_ptr = w.next_ptr ∧
    (Install env w path id).2.2.apps_loaded = w.apps_loaded ∧
    (Install env w path id).2.2.load_observers = w.load_observers ∧
    (Install env w path id).2.2.notifications =
      w.notifications ++
        w.observers.map (fun o => Notification.OnApplicationInstalled o application_data.ID) := by
  have h_frame := unpack_frame env w path id dir app_id w1 h_source
  have h_added := add_application_succeeded _ _ _ h_add
  rw [install_eq_unpack, h_source]
  rw [h_frame]
  simp [Install.load, h_load, h_init, h_main, h_add, h_added, FOR_EACH_OBSERVER,
    ApplicationStorage.Contains]

/-- C12 at a concrete call: the archive `pkg.xpk` is installed into the empty
store of `sampleFreshWorld`; the two observers each receive one call. -/
theorem C12_install_without_main_document_witness :
    (Install sampleEnv sampleFreshWorld ["pkg.xpk"] "").1 = true ∧
    (Install sampleEnv sampleFreshWorld ["pkg.xpk"] "").2.1 = "app1" ∧
    (Install sampleEnv sampleFreshWorld ["pkg.xpk"] "").2.2.storage.Contains "app1" = true ∧
    (Install sampleEnv sampleFreshWorld ["pkg.xpk"] "").2.2.applications = [] ∧
    (Install sampleEnv sampleFreshWorld ["pkg.xpk"] "").2.2.notifications =
      [Notification.OnApplicationInstalled 10 "app1",
       Notification.OnApplicationInstalled 11 "app1"] :=
  have h := C12_install_without_main_document sampleEnv sampleFreshWorld ["pkg.xpk"] ""
    ["data", "applications", "app1"] "app1"
    { sampleFreshWorld with
      file_system :=
        { directories := [["data", "applications"], ["data", "applications", "app1"]],
          files := [["pkg.xpk"]] } }
    { sampleData with path := ["data", "applications", "app1"] }
    (by rfl) (by rfl) (by rfl) (by rfl) (by rfl)
  ⟨h.1, h.2.1, h.2.2.2.1, h.2.2.2.2.1, h.2.2.2.2.2.2.2.2⟩

/-! ## Theorems: the lifecycle event coordinator -/

/-- Nothing happens when events arrive for an observer that is not attached. -/
theorem deliver_detached (dcheck_is_on : Bool) (self : CloseOnEventArrived)
    (app_id : String) (events : List Event) (w : World)
    (h_detached : self.attached w = false) :
    DeliverEvents dcheck_is_on w self app_id events = Exec.returned () w := by
  induction events with
  | nil => rfl
  | cons event rest ih => simp [DeliverEvents, h_detached, ih]

/-- After `delete this` the observer is not attached. -/
theorem detached_after_delete (self : CloseOnEventArrived) (w : World) :
    self.attached
      { w with event_observers :=
          w.event_observers.filter (fun o => o.observer.ptr != self.ptr) } = false := by
  simp [CloseOnEventArrived.attached, List.any_eq_false, List.mem_filter]

/-- Acknowledgments delivered to an attached observer: the first one that
carries the awaited name closes the message loop and ends the observer, the
others change nothing. -/
theorem deliver_attached (dcheck_is_on : Bool) (self : CloseOnEventArrived)
    (app_id : String) (events : List Event) (w : World)
    (h_attached : self.attached w = true)
    (h_acks : ∀ e ∈ events, e.name = kOnJavaScriptEventAck) :
    DeliverEvents dcheck_is_on w self app_id events =
      Exec.returned ()
        (if events.any (fun e => e.ack_event_name == self.event_name_) then
          { CloseMessageLoop w with event_observers :=
              w.event_observers.filter (fun o => o.observer.ptr != self.ptr) }
         else w) := by
  induction events with
  | nil => rfl
  | cons event rest ih =>
    have h_name : event.name = kOnJavaScriptEventAck := h_acks event (List.mem_cons_self _ _)
    have h_rest := ih (fun e he => h_acks e (List.mem_cons_of_mem _ he))
    by_cases h_match : event.ack_event_name = self.event_name_
    · have h_gone := detached_after_delete self (CloseMessageLoop w)
      have h_after := deliver_detached dcheck_is_on self app_id rest _ h_gone
      have h_match1 : (ListValue.GetString event.args 0 "").2 = self.event_name_ := h_match
      simp only [DeliverEvents, h_attached, CloseOnEventArrived.Observe, h_name,
        decide_True, Bool.not_true, Bool.and_false, Bool.false_eq_true, ↓reduceIte,
        h_match1, ne_eq, not_true_eq_false, List.any_cons, h_match, beq_self_eq_true,
        Bool.true_or]
      exact h_after
    · have h_match1 : ¬ (ListValue.GetString event.args 0 "").2 = self.event_name_ := h_match
      have h_beq : (event.ack_event_name == self.event_name_) = false := by
        simpa using h_match
      simp only [DeliverEvents, h_attached, CloseOnEventArrived.Observe, h_name,
        decide_True, Bool.not_true, Bool.and_false, Bool.false_eq_true, ↓reduceIte,
        h_match1, ne_eq, not_false_eq_true, List.any_cons, h_beq, Bool.false_or]
      exact h_rest

/-- C13: for every sequence of acknowledgment events delivered to the
observer created by `WaitForEventAndClose` for an awaited event name, the
delivery returns; when no acknowledgment carries the awaited name as its inner
name (argument 0, read as the empty string when it is not a string) the state
is unchanged, so nothing is signalled and the observer stays attached; when one
does, `CloseMessageLoop` has been called exactly once and the observer has been
taken off the event manager.  As this holds for every sequence, hence for
every prefix, the signal happens at the first matching acknowledgment and
later ones add nothing. -/
theorem C13_one_shot_acknowledgment (dcheck_is_on : Bool) (w : World)
    (app_id event_name : String) (events : List Event)
    (h_acks : ∀ e ∈ events, e.name = kOnJavaScriptEventAck) :
    DeliverEvents dcheck_is_on (WaitForEventAndClose w app_id event_name)
        (WaitForEventAndClose.observer w event_name) app_id events =
      Exec.returned ()
        (if events.any (fun e => e.ack_event_name == event_name) then
          { WaitForEventAndClose w app_id event_name with
            quit_when_idle := w.quit_when_idle + 1,
            event_observers :=
              (WaitForEventAndClose w app_id event_name).event_observers.filter
                (fun o => o.observer.ptr != w.next_ptr) }
         else WaitForEventAndClose w app_id event_name) := by
  have h_attached : (WaitForEventAndClose.observer w event_name).attached
      (WaitForEventAndClose w app_id event_name) = true := by
    simp [CloseOnEventArrived.attached, WaitForEventAndClose, AttachObserver,
      WaitForEventAndClose.observer]
  exact deliver_attached dcheck_is_on (WaitForEventAndClose.observer w event_name) app_id
    events (WaitForEventAndClose w app_id event_name) h_attached h_acks

/-- C13 at a concrete sequence: an acknowledgment of another event, then two
acknowledgments of the awaited event; one `QuitWhenIdle` call is made and the
observer is gone. -/
theorem C13_one_shot_acknowledgment_witness :
    (DeliverEvents true (WaitForEventAndClose sampleWorld "app1" kOnInstalled)
      (WaitForEventAndClose.observer sampleWorld kOnInstalled) "app1"
      [sampleAck "other", sampleAck kOnInstalled, sampleAck kOnInstalled]).isReturned
        = true ∧
    (DeliverEvents true (WaitForEventAndClose sampleWorld "app1" kOnInstalled)
      (WaitForEventAndClose.observer sampleWorld kOnInstalled) "app1"
      [sampleAck "other", sampleAck kOnInstalled, sampleAck kOnInstalled]).world.quit_when_idle
        = 1 ∧
    (DeliverEvents true (WaitForEventAndClose sampleWorld "app1" kOnInstalled)
      (WaitForEventAndClose.observer sampleWorld kOnInstalled) "app1"
      [sampleAck "other", sampleAck kOnInstalled, sampleAck kOnInstalled]).world.event_observers
        = [] ∧
    (DeliverEvents true (WaitForEventAndClose sampleWorld "app1" kOnInstalled)
      (WaitForEventAndClose.observer sampleWorld kOnInstalled) "app1"
      [sampleAck "other"]).world.quit_when_idle = 0 :=
  have h := C13_one_shot_acknowledgment true sampleWorld "app1" kOnInstalled
    [sampleAck "other", sampleAck kOnInstalled, sampleAck kOnInstalled]
    (by
      intro e he
      simp only [List.mem_cons, List.mem_singleton, List.not_mem_nil, or_false] at he
      rcases he with h1 | h1 | h1 <;> rw [h1] <;> rfl)
  have h_short := C13_one_shot_acknowledgment true sampleWorld "app1" kOnInstalled
    [sampleAck "other"]
    (by
      intro e he
      rw [List.mem_singleton.mp he]
      rfl)
  ⟨by rw [h]; rfl, by rw [h]; rfl, by rw [h]; rfl, by rw [h_short]; rfl⟩

/-- The load handler on its own: what `DidFinishLoad` leaves behind. -/
theorem did_finish_load_cases (w : World) (self : CloseAfterLoadObserver) :
    (kOnInstalled ∉ self.application.GetEvents →
      self.DidFinishLoad w =
        { w with quit_when_idle := w.quit_when_idle + 1,
                 load_observers := w.load_observers.erase self }) ∧
    (kOnInstalled ∈ self.application.GetEvents →
      self.DidFinishLoad w =
        { w with
          sent_events := w.sent_events ++
            [(self.application.ID, Event.CreateEvent kOnInstalled [])],
          next_ptr := w.next_ptr + 1,
          event_observers := w.event_observers ++
            [{ app_id := self.application.ID, event_name := kOnJavaScriptEventAck,
               observer := { ptr := w.next_ptr, event_name_ := kOnInstalled } }],
          load_observers := w.load_observers.erase self }) := by
  constructor
  · intro h
    simp [CloseAfterLoadObserver.DidFinishLoad,
      CloseAfterLoadObserver.IsEventHandlerRegistered, h, CloseMessageLoop]
  · intro h
    simp [CloseAfterLoadObserver.DidFinishLoad,
      CloseAfterLoadObserver.IsEventHandlerRegistered, h, SendEvent, WaitForEventAndClose,
      AttachObserver, WaitForEventAndClose.observer, Event.CreateEvent]

/-- C17: when the web contents watched by the load observer (and by no other
load observer) report the end of the load: if the events of the application do
not contain the "installed" event, `CloseMessageLoop` is called once and no
event is sent and no observer attached; otherwise one "installed" event with
no arguments is sent to the application id, one acknowledgment observer
awaiting that event name is attached under that id, and `CloseMessageLoop` is
not called.  In both cases the load observer is removed, and a second report
from the same web contents changes nothing. -/
theorem C17_load_finished (w : World) (self : CloseAfterLoadObserver)
    (h_only : w.load_observers.filter (fun o => o.contents == self.contents) = [self]) :
    (kOnInstalled ∉ self.application.GetEvents →
      NotifyDidFinishLoad w self.contents =
        { w with quit_when_idle := w.quit_when_idle + 1,
                 load_observers := w.load_observers.erase self }) ∧
    (kOnInstalled ∈ self.application.GetEvents →
      NotifyDidFinishLoad w self.contents =
        { w with
          sent_events := w.sent_events ++
            [(self.application.ID, Event.CreateEvent kOnInstalled [])],
          next_ptr := w.next_ptr + 1,
          event_observers := w.event_observers ++
            [{ app_id := self.application.ID, event_name := kOnJavaScriptEventAck,
               observer := { ptr := w.next_ptr, event_name_ := kOnInstalled } }],
          load_observers := w.load_observers.erase self }) ∧
    (NotifyDidFinishLoad w self.contents).load_observers = w.load_observers.erase self ∧
    NotifyDidFinishLoad (NotifyDidFinishLoad w self.contents) self.contents =
      NotifyDidFinishLoad w self.contents := by
  have h_first : NotifyDidFinishLoad w self.contents = self.DidFinishLoad w := by
    simp [NotifyDidFinishLoad, h_only]
  have h_cases := did_finish_load_cases w self
  have h_removed : (self.DidFinishLoad w).load_observers = w.load_observers.erase self := by
    by_cases h : kOnInstalled ∈ self.application.GetEvents
    · rw [h_cases.2 h]
    · rw [h_cases.1 h]
  have h_none : (w.load_observers.erase self).filter
      (fun o => o.contents == self.contents) = [] := by
    rw [← List.erase_filter, h_only]
    simp
  refine ⟨?_, ?_, ?_, ?_⟩
  · intro h
    rw [h_first]
    exact h_cases.1 h
  · intro h
    rw [h_first]
    exact h_cases.2 h
  · rw [h_first]
    exact h_removed
  · rw [h_first]
    simp [NotifyDidFinishLoad, h_removed, h_none]

/-- C17 at concrete states: an application without listener for the
"installed" event, and one with it. -/
theorem C17_load_finished_witness :
    NotifyDidFinishLoad (sampleLoadingWorld []) 2 =
      { sampleLoadingWorld [] with
        quit_when_idle := 1,
        load_observers := [{ application := sampleData, contents := 9 }] } ∧
    NotifyDidFinishLoad (sampleLoadingWorld [kOnInstalled]) 2 =
      { sampleLoadingWorld [kOnInstalled] with
        sent_events := [("app1", { name := kOnInstalled, args := [] })],
        next_ptr := 3,
        event_observers :=
          [{ app_id := "app1", event_name := kOnJavaScriptEventAck,
             observer := { ptr := 2, event_name_ := kOnInstalled } }],
        load_observers := [{ application := sampleData, contents := 9 }] } ∧
    NotifyDidFinishLoad (NotifyDidFinishLoad (sampleLoadingWorld [kOnInstalled]) 2) 2 =
      NotifyDidFinishLoad (sampleLoadingWorld [kOnInstalled]) 2 :=
  have h_without := C17_load_finished (sampleLoadingWorld []) (sampleLoadObserver [])
    (by rfl)
  have h_with := C17_load_finished (sampleLoadingWorld [kOnInstalled])
    (sampleLoadObserver [kOnInstalled]) (by rfl)
  ⟨h_without.1 (by decide), h_with.2.1 (by decide), h_with.2.2.2⟩

/-! ## Theorems: decoding names, the bridge, uninstall notifications -/

/-- C21: for every string, `StringToStoredPerm` yields ALLOW exactly for
`ALLOW`, DENY exactly for `DENY`, PROMPT exactly for `PROMPT` (the comparison
is string equality, so case matters), and `INVALID_STORED_PERM` exactly for
every other string, the empty string among them. -/
theorem C21_string_to_stored_perm (str : String) :
    (StringToStoredPerm str = StoredPermission.ALLOW ↔ str = "ALLOW") ∧
    (StringToStoredPerm str = StoredPermission.DENY ↔ str = "DENY") ∧
    (StringToStoredPerm str = StoredPermission.PROMPT ↔ str = "PROMPT") ∧
    (StringToStoredPerm str = StoredPermission.INVALID_STORED_PERM ↔
      (str ≠ "ALLOW" ∧ str ≠ "DENY" ∧ str ≠ "PROMPT")) ∧
    StringToStoredPerm "" = StoredPermission.INVALID_STORED_PERM ∧
    StringToStoredPerm "allow" = StoredPermission.INVALID_STORED_PERM := by
  by_cases h1 : str = "ALLOW"
  · subst h1
    decide
  · by_cases h2 : str = "DENY"
    · subst h2
      decide
    · by_cases h3 : str = "PROMPT"
      · subst h3
        decide
      · have h_loop : StringToStoredPerm str = StoredPermission.INVALID_STORED_PERM := by
          have e1 : ¬ "ALLOW" = str := fun h => h1 h.symm
          have e2 : ¬ "DENY" = str := fun h => h2 h.symm
          have e3 : ¬ "PROMPT" = str := fun h => h3 h.symm
          simp [StringToStoredPerm, StringToStoredPerm.loop, StoredPermission.value,
            StoredPermissionStr, StoredPermission.cast, e1, e2, e3]
        refine ⟨?_, ?_, ?_, ?_, by decide, by decide⟩
        · simp [h_loop, h1]
        · simp [h_loop, h2]
        · simp [h_loop, h3]
        · simp [h_loop, h1, h2, h3]

/-- C22: with an empty registry the bridge's `CheckAPIAccessControl` calls the
callback once with INVALID_RUNTIME_PERM and returns, and the bridge's
`RegisterPermissions` returns false and delegates nothing; with a registry
whose first (earliest launched) instance is `first`, both do what the service's
function does when called with the id of `first`.  The bridge takes no
argument naming the application a request comes from, so the answer cannot
depend on it. -/
theorem C22_bridge_uses_first_application (dcheck_is_on : Bool)
    (applications : List Application) (extension_name api_name perm_table : String) :
    (applications = [] →
      XWalkAppExtensionBridge.CheckAPIAccessControl dcheck_is_on applications
          extension_name api_name =
        ⟨[RuntimePermission.INVALID_RUNTIME_PERM], Termination.returned⟩ ∧
      XWalkAppExtensionBridge.RegisterPermissions applications extension_name perm_table =
        (false, [])) ∧
    (∀ first rest, applications = first :: rest →
      XWalkAppExtensionBridge.CheckAPIAccessControl dcheck_is_on applications
          extension_name api_name =
        CheckAPIAccessControl dcheck_is_on applications first.id extension_name api_name ∧
      XWalkAppExtensionBridge.RegisterPermissions applications extension_name perm_table =
        RegisterPermissions applications first.id extension_name perm_table) := by
  constructor
  · intro h_empty
    subst h_empty
    exact ⟨rfl, rfl⟩
  · intro first rest h_registry
    subst h_registry
    exact ⟨rfl, rfl⟩

/-- C22 at concrete registries: the empty one, and one where `app0` runs in
front of an instance of `app1`; the bridge answers for `app0`. -/
theorem C22_bridge_uses_first_application_witness :
    (XWalkAppExtensionBridge.CheckAPIAccessControl true [] "ext" "api" =
        ⟨[RuntimePermission.INVALID_RUNTIME_PERM], Termination.returned⟩ ∧
      XWalkAppExtensionBridge.RegisterPermissions [] "ext" "table" = (false, [])) ∧
    (XWalkAppExtensionBridge.CheckAPIAccessControl true sampleThreeApps "ext" "api" =
        CheckAPIAccessControl true sampleThreeApps "app0" "ext" "api" ∧
      XWalkAppExtensionBridge.RegisterPermissions sampleThreeApps "ext" "table" =
        RegisterPermissions sampleThreeApps "app0" "ext" "table") :=
  ⟨(C22_bridge_uses_first_application true [] "ext" "api" "table").1 rfl,
   (C22_bridge_uses_first_application true sampleThreeApps "ext" "api" "table").2
      sampleOtherApp _ rfl⟩

/-- C23: for every id and every answer of the store and the file system,
`Uninstall` returns success exactly when the durable record was removed and the
resource directory did not exist or was deleted; the observer calls added are
one `OnApplicationUninstalled` with the id per observer when it returns
success and none when it returns failure; and when the record is removed but
the deletion of the existing resource directory fails, the store no longer
contains the id and no observer call is added. -/
theorem C23_uninstall_notifies_iff_success (env : Env) (w : World) (id : String) :
    (Uninstall env w id).1 =
      ((w.storage.RemoveApplication env.storage_write_ok id).1 &&
        (!DirectoryExists w.file_system
            (FilePath.Append (FilePath.Append env.data_path kApplicationsDir) id) ||
          (DeleteFile env.delete_file_ok w.file_system
            (FilePath.Append (FilePath.Append env.data_path kApplicationsDir) id)
            true).1)) ∧
    (Uninstall env w id).2.notifications =
      (if (Uninstall env w id).1 then
        w.notifications ++
          w.observers.map (fun o => Notification.OnApplicationUninstalled o id)
       else w.notifications) ∧
    ((w.storage.RemoveApplication env.storage_write_ok id).1 = true →
      DirectoryExists w.file_system
        (FilePath.Append (FilePath.Append env.data_path kApplicationsDir) id) = true →
      (DeleteFile env.delete_file_ok w.file_system
        (FilePath.Append (FilePath.Append env.data_path kApplicationsDir) id) true).1
          = false →
      (Uninstall env w id).1 = false ∧
      (Uninstall env w id).2.storage.Contains id = false ∧
      (Uninstall env w id).2.notifications = w.notifications) := by
  refine ⟨?_, ?_, ?_⟩
  · cases h_removed : (w.storage.RemoveApplication env.storage_write_ok id).1 with
    | false => simp [Uninstall, h_removed]
    | true =>
      cases h_dir : DirectoryExists w.file_system
          (FilePath.Append (FilePath.Append env.data_path kApplicationsDir) id) with
      | false => simp [Uninstall, h_removed, h_dir]
      | true =>
        cases h_deleted : (DeleteFile env.delete_file_ok w.file_system
            (FilePath.Append (FilePath.Append env.data_path kApplicationsDir) id)
            true).1 with
        | false => simp [Uninstall, h_removed, h_dir, h_deleted]
        | true => simp [Uninstall, h_removed, h_dir, h_deleted]
  · cases h_removed : (w.storage.RemoveApplication env.storage_write_ok id).1 with
    | false => simp [Uninstall, h_removed]
    | true =>
      cases h_dir : DirectoryExists w.file_system
          (FilePath.Append (FilePath.Append env.data_path kApplicationsDir) id) with
      | false => simp [Uninstall, h_removed, h_dir, FOR_EACH_OBSERVER]
      | true =>
        cases h_deleted : (DeleteFile env.delete_file_ok w.file_system
            (FilePath.Append (FilePath.Append env.data_path kApplicationsDir) id)
            true).1 with
        | false => simp [Uninstall, h_removed, h_dir, h_deleted]
        | true => simp [Uninstall, h_removed, h_dir, h_deleted, FOR_EACH_OBSERVER]
  · intro h_removed h_dir h_deleted
    have h_gone := remove_application_succeeded env.storage_write_ok w.storage id h_removed
    simp [Uninstall, h_removed, h_dir, h_deleted, h_gone]

/-- C23 at concrete calls: a successful uninstall of `app1` notifies both
observers; with the deletion refused the call fails, the record is gone and
nobody is notified. -/
theorem C23_uninstall_notifies_iff_success_witness :
    ((Uninstall sampleEnv sampleInstalledWorld "app1").1 = true ∧
      (Uninstall sampleEnv sampleInstalledWorld "app1").2.notifications =
        [Notification.OnApplicationUninstalled 10 "app1",
         Notification.OnApplicationUninstalled 11 "app1"]) ∧
    ((Uninstall { sampleEnv with delete_file_ok := false } sampleInstalledWorld "app1").1
        = false ∧
      (Uninstall { sampleEnv with delete_file_ok := false } sampleInstalledWorld
        "app1").2.storage.Contains "app1" = false ∧
      (Uninstall { sampleEnv with delete_file_ok := false } sampleInstalledWorld
        "app1").2.notifications = sampleInstalledWorld.notifications) :=
  have h := C23_uninstall_notifies_iff_success sampleEnv sampleInstalledWorld "app1"
  ⟨⟨by rw [h.1]; rfl, by rw [h.2.1]; rfl⟩,
   (C23_uninstall_notifies_iff_success { sampleEnv with delete_file_ok := false }
      sampleInstalledWorld "app1").2.2 (by rfl) (by rfl) (by rfl)⟩

end application
end xwalk
